import Mathlib

/-!
Verification of the Pi-hole v6 API client (`custom_components/pi_hole_v6`).

The development shallowly embeds the two core modules of the repository:

* `exceptions.py` — the error taxonomy and the `handle_status` classifier;
* `api.py` — the `API` client class: session orchestration
  (`_check_authentification`, `_request_login`), request dispatch (`_call`),
  the public `call_*` operations and their cached snapshots.

Python exceptions are embedded as an inductive error type and fallible code
runs in a state-and-error monad whose error branch keeps the state reached at
the raise point, matching the semantics of exceptions thrown while mutating
object fields.  The HTTP session is embedded as a scripted fake transport: a
list of transport outcomes consumed in order, with every dispatched request
recorded in a trace (method, url, headers, JSON body, timeout budget), so
call-order and wire-format properties are statements about the trace.
-/

namespace PiHoleV6

/-- JSON-like values, the shallow embedding of the Python dict/list/str/int/
bool/None data handled by the client.  Objects are association lists of
string keys in insertion order, matching Python dict semantics. -/
inductive JVal where
  | null : JVal
  | bool : Bool → JVal
  | num : Int → JVal
  | str : String → JVal
  | arr : List JVal → JVal
  | obj : List (String × JVal) → JVal

/-- The error taxonomy of `exceptions.py`, one constructor per exception
class, plus the built-in Python exceptions the client code can raise:
`NotImplementedError` (here carrying the offending status code, which in the
source is embedded in the message f-string), `RuntimeError` for an
unsupported HTTP method, and `KeyError`/`TypeError` for dict access on
missing keys or non-dict values.  `NoScriptedResponse` is an artefact of the
scripted fake transport: it signals that the script was exhausted, and every
theorem below supplies a script long enough that it never arises. -/
inductive ApiError where
  | BadGatewayException : ApiError
  | BadRequestException : ApiError
  | ClientConnectorException : ApiError
  | ContentTypeException : ApiError
  | ForbiddenException : ApiError
  | GatewayTimeoutException : ApiError
  | NotFoundException : ApiError
  | RequestFailedException : ApiError
  | ServerErrorException : ApiError
  | ServiceUnavailableException : ApiError
  | TooManyRequestsException : ApiError
  | UnauthorizedException : ApiError
  | NotImplementedError : Int → ApiError
  | RuntimeError : String → ApiError
  | KeyError : String → ApiError
  | TypeError : ApiError
  | NoScriptedResponse : ApiError
deriving DecidableEq

/-- The `exception_map` dict of `handle_status` in `exceptions.py`. -/
def exception_map : List (Int × ApiError) :=
  [(400, ApiError.BadRequestException),
   (401, ApiError.UnauthorizedException),
   (402, ApiError.RequestFailedException),
   (403, ApiError.ForbiddenException),
   (404, ApiError.NotFoundException),
   (429, ApiError.TooManyRequestsException),
   (500, ApiError.ServerErrorException),
   (502, ApiError.BadGatewayException),
   (503, ApiError.ServiceUnavailableException),
   (504, ApiError.GatewayTimeoutException)]

/-- Embeds `handle_status` from `exceptions.py`: status `< 400` returns normally,
a status in `exception_map` raises the mapped exception, any other status
raises `NotImplementedError` carrying the status code. -/
def handle_status (status_code : Int) : Except ApiError Unit :=
  if status_code < 400 then Except.ok ()
  else
    match exception_map.lookup status_code with
    | some e => Except.error e
    | none => Except.error (ApiError.NotImplementedError status_code)

/-! ### SHA-256

`_get_sid_hash` logs `hashlib.sha256(sid.encode("utf-8")).hexdigest()`.
The hash is embedded in full: UTF-8 encoding, padding, message schedule and
compression, over `Nat` with explicit reduction modulo `2 ^ 32`. -/

/-- UTF-8 encoding of a single character (`str.encode("utf-8")`),
as its list of byte values. -/
def utf8Char (c : Char) : List Nat :=
  let n := c.toNat
  if n < 128 then [n]
  else if n < 2048 then [192 + n / 64, 128 + n % 64]
  else if n < 65536 then [224 + n / 4096, 128 + (n / 64) % 64, 128 + n % 64]
  else [240 + n / 262144, 128 + (n / 4096) % 64, 128 + (n / 64) % 64, 128 + n % 64]

/-- UTF-8 encoding of a string as a list of byte values. -/
def utf8Encode (s : String) : List Nat :=
  s.data.foldr (fun c acc => utf8Char c ++ acc) []

/-- Reduction modulo `2 ^ 32`, the word size of SHA-256 arithmetic. -/
def m32 (x : Nat) : Nat := x % 4294967296

/-- Right rotation of a 32-bit word by `n` bits. -/
def rotr32 (n x : Nat) : Nat := m32 ((x >>> n) ||| (x <<< (32 - n)))

/-- SHA-256 round constants (fractional parts of cube roots of the first
64 primes). -/
def sha_k : List Nat :=
  [1116352408, 1899447441, 3049323471, 3921009573, 961987163, 1508970993,
   2453635748, 2870763221, 3624381080, 310598401, 607225278, 1426881987,
   1925078388, 2162078206, 2614888103, 3248222580, 3835390401, 4022224774,
   264347078, 604807628, 770255983, 1249150122, 1555081692, 1996064986,
   2554220882, 2821834349, 2952996808, 3210313671, 3336571891, 3584528711,
   113926993, 338241895, 666307205, 773529912, 1294757372, 1396182291,
   1695183700, 1986661051, 2177026350, 2456956037, 2730485921, 2820302411,
   3259730800, 3345764771, 3516065817, 3600352804, 4094571909, 275423344,
   430227734, 506948616, 659060556, 883997877, 958139571, 1322822218,
   1537002063, 1747873779, 1955562222, 2024104815, 2227730452, 2361852424,
   2428436474, 2756734187, 3204031479, 3329325298]

/-- SHA-256 initial hash values (fractional parts of square roots of the
first 8 primes). -/
def sha_h0 : List Nat :=
  [1779033703, 3144134277, 1013904242, 2773480762, 1359893119, 2600822924,
   528734635, 1541459225]

/-- Big-endian byte decomposition of `v` into `k` bytes. -/
def bytesBE : Nat → Nat → List Nat
  | 0, _ => []
  | k + 1, v => bytesBE k (v / 256) ++ [v % 256]

/-- SHA-256 message padding: append `0x80`, zero bytes up to 56 mod 64,
then the bit length as 8 big-endian bytes. -/
def sha_pad (msg : List Nat) : List Nat :=
  let len := msg.length
  let zeros := (120 - (len + 1) % 64) % 64
  msg ++ [128] ++ List.replicate zeros 0 ++ bytesBE 8 (8 * len)

/-- Group a byte list into 32-bit big-endian words. -/
def toWords : List Nat → List Nat
  | b0 :: b1 :: b2 :: b3 :: rest =>
      (b0 * 16777216 + b1 * 65536 + b2 * 256 + b3) :: toWords rest
  | _ => []

/-- Split a word list into groups of 16, driven by a block-count fuel. -/
def chunk16_go : Nat → List Nat → List (List Nat)
  | 0, _ => []
  | n + 1, ws => ws.take 16 :: chunk16_go n (ws.drop 16)

/-- Split a word list into its 16-word blocks. -/
def chunk16 (ws : List Nat) : List (List Nat) := chunk16_go (ws.length / 16) ws

/-- SHA-256 lowercase sigma-0. -/
def ssig0 (x : Nat) : Nat := (rotr32 7 x) ^^^ (rotr32 18 x) ^^^ (x >>> 3)

/-- SHA-256 lowercase sigma-1. -/
def ssig1 (x : Nat) : Nat := (rotr32 17 x) ^^^ (rotr32 19 x) ^^^ (x >>> 10)

/-- SHA-256 uppercase Sigma-0. -/
def bsig0 (x : Nat) : Nat := (rotr32 2 x) ^^^ (rotr32 13 x) ^^^ (rotr32 22 x)

/-- SHA-256 uppercase Sigma-1. -/
def bsig1 (x : Nat) : Nat := (rotr32 6 x) ^^^ (rotr32 11 x) ^^^ (rotr32 25 x)

/-- Extend a 16-word block to the 64-word message schedule (`n` counts the
remaining extension steps, 48 at the start). -/
def extend_schedule : Nat → List Nat → List Nat
  | 0, w => w
  | n + 1, w =>
      let i := w.length
      let nw := m32 (ssig1 (w.getD (i - 2) 0) + w.getD (i - 7) 0 +
        ssig0 (w.getD (i - 15) 0) + w.getD (i - 16) 0)
      extend_schedule n (w ++ [nw])

/-- One SHA-256 compression round on the 8-word working state. -/
def sha_round (state : List Nat) (ki : Nat) (wi : Nat) : List Nat :=
  match state with
  | [a, b, c, d, e, f, g, h] =>
      let ch := (e &&& f) ^^^ ((4294967295 ^^^ e) &&& g)
      let maj := (a &&& b) ^^^ (a &&& c) ^^^ (b &&& c)
      let t1 := m32 (h + bsig1 e + ch + ki + wi)
      let t2 := m32 (bsig0 a + maj)
      [m32 (t1 + t2), a, b, c, m32 (d + t1), e, f, g]
  | other => other

/-- SHA-256 compression of one 16-word block into the running hash. -/
def sha_compress (h : List Nat) (block : List Nat) : List Nat :=
  let w := extend_schedule 48 block
  let final := List.foldl (fun st p => sha_round st p.1 p.2) h (sha_k.zip w)
  List.zipWith (fun x y => m32 (x + y)) h final

/-- SHA-256 digest of a byte list, as 8 words. -/
def sha256_words (msg : List Nat) : List Nat :=
  List.foldl sha_compress sha_h0 (chunk16 (toWords (sha_pad msg)))

/-- A 32-bit word as 8 lowercase hex digits. -/
def hex8 (x : Nat) : String :=
  let ds := Nat.toDigits 16 x
  String.mk (List.replicate (8 - ds.length) '0' ++ ds)

/-- Embeds `hashlib.sha256(s.encode("utf-8")).hexdigest()`. -/
def sha256hex (s : String) : String :=
  String.join ((sha256_words (utf8Encode s)).map hex8)

/-! ### JSON access helpers

Python dict subscripts on the parsed response data: `d[k]` raises
`KeyError(k)` on a missing key and `TypeError` when the value is not a
dict; `d[k] = v` updates an existing key in place (keeping its position,
as Python dicts do) or appends a new one. -/

/-- Lookup in an object's field list, first match. -/
def jlookup : List (String × JVal) → String → Option JVal
  | [], _ => none
  | (k, v) :: rest, key => if k = key then some v else jlookup rest key

/-- Dict assignment `d[key] = v`: update in place or append. -/
def jset : List (String × JVal) → String → JVal → List (String × JVal)
  | [], key, v => [(key, v)]
  | (k, w) :: rest, key, v =>
      if k = key then (key, v) :: rest else (k, w) :: jset rest key v

/-- Python `d[key]` on a parsed JSON value: `KeyError` when the key is
missing, `TypeError` when `d` is not a dict. -/
def JVal.getKey : JVal → String → Except ApiError JVal
  | JVal.obj fields, key =>
      match jlookup fields key with
      | some v => Except.ok v
      | none => Except.error (ApiError.KeyError key)
  | _, key => Except.error (ApiError.TypeError)

/-! ### Client state, configuration and the execution monad -/

/-- An HTTP response as seen by `_call`: `status`, `reason` and `text`,
with `json` the result of `await request.json()` — `none` embeds a
`ContentTypeError` (body not parseable as JSON).  `text` is the response
body text, following the source's own annotation of the response as
`requests.Response`, whose `text` attribute is the body string. -/
structure HttpResponse where
  status : Int
  reason : String
  text : String
  json : Option JVal

/-- One outcome of the scripted fake transport.  `hang` is a request that
does not complete within the `asyncio.timeout` window (`TimeoutError`),
`clientError` an aiohttp `ClientError`, `gaiError` a DNS
address-resolution failure (`socket.gaierror`). -/
inductive TransportResult where
  | ok : HttpResponse → TransportResult
  | hang : TransportResult
  | clientError : TransportResult
  | gaiError : TransportResult

/-- A dispatched request as recorded in the trace: method, full url, the
headers sent, the JSON body (`none` for GET/DELETE, which send none), and
the `asyncio.timeout` budget in seconds the dispatch ran under. -/
structure TraceEntry where
  method : String
  url : String
  headers : List (String × String)
  body : Option JVal
  timeoutBudget : Nat

/-- The mutable fields of the `API` object (`_sid` and the four cache
snapshots), together with the scripted transport still to be consumed, the
trace of dispatched requests, and the rendered debug-log lines.

`cache_groups` is an association list in insertion order; its keys are
`String` following the source's own annotation
`cache_groups: dict[str, dict[str, Any]]`. -/
structure ClientState where
  sid : Option String
  cache_blocking : JVal
  cache_padd : JVal
  cache_summary : JVal
  cache_groups : List (String × JVal)
  script : List TransportResult
  trace : List TraceEntry
  log : List String

/-- The immutable client configuration provided at construction:
base `url` and `_password`. -/
structure Cfg where
  url : String
  password : String

/-- Result of running a client computation: a value or a raised error, in
both cases together with the object state reached — a Python exception
does not roll back field assignments already performed. -/
inductive Res (α : Type) where
  | ok : α → ClientState → Res α
  | err : ApiError → ClientState → Res α

/-- The state reached by a computation, whether it returned or raised. -/
def Res.state : {α : Type} → Res α → ClientState
  | _, Res.ok _ s => s
  | _, Res.err _ s => s

/-- Whether a computation returned normally. -/
def Res.isOk : {α : Type} → Res α → Bool
  | _, Res.ok _ _ => true
  | _, Res.err _ _ => false

/-- Client computations: state in, value-or-error with state out. -/
def ApiM (α : Type) : Type := ClientState → Res α

/-- Monadic return. -/
def ApiM.pure {α : Type} (a : α) : ApiM α := fun s => Res.ok a s

/-- Monadic bind; a raised error short-circuits, keeping its state. -/
def ApiM.bind {α β : Type} (x : ApiM α) (f : α → ApiM β) : ApiM β := fun s =>
  match x s with
  | Res.ok a s1 => f a s1
  | Res.err e s1 => Res.err e s1

instance : Monad ApiM where
  pure := ApiM.pure
  bind := ApiM.bind

/-- Embeds `raise e`. -/
def ApiM.throw {α : Type} (e : ApiError) : ApiM α := fun s => Res.err e s

/-- Read the object state. -/
def getS : ApiM ClientState := fun s => Res.ok s s

/-- Update the object state (a field assignment). -/
def modifyS (f : ClientState → ClientState) : ApiM Unit :=
  fun s => Res.ok () (f s)

/-- Lift a pure `Except` computation (a dict subscript, say) into the
monad. -/
def liftE {α : Type} (x : Except ApiError α) : ApiM α :=
  match x with
  | Except.ok a => ApiM.pure a
  | Except.error e => ApiM.throw e

/-- Unfolding lemma: do-notation bind is `ApiM.bind`. -/
theorem ApiM.bind_def {α β : Type} (x : ApiM α) (f : α → ApiM β) :
    x >>= f = ApiM.bind x f := rfl

/-- Unfolding lemma: do-notation pure is `ApiM.pure`. -/
theorem ApiM.pure_def {α : Type} (a : α) :
    (Pure.pure a : ApiM α) = ApiM.pure a := rfl

/-! ### Logging and request dispatch -/

/-- Python `"%s" % x` rendering of an optional string: `None` prints as
`"None"`. -/
def renderOpt : Option String → String
  | none => "None"
  | some s => s

/-- Embeds `self._get_logger().debug(...)` with the format already rendered:
append the line to the log. -/
def logDebug (line : String) : ApiM Unit :=
  modifyS (fun s => { s with log := s.log ++ [line] })

/-- Embeds `_get_sid_hash` from `api.py`: ignores its `sid` argument and hashes the
object's `_sid` field; returns `None` when no session is held, else the
SHA-256 hex digest of the UTF-8 encoded token. -/
def get_sid_hash (self_sid : Option String) (sid : Option String) :
    Option String :=
  match self_sid with
  | some t => some (sha256hex t)
  | none => none

/-- Python `str.lower()` on one character, for the ASCII range the client's
method strings live in. -/
def char_lower (c : Char) : Char :=
  if 65 ≤ c.toNat ∧ c.toNat ≤ 90 then Char.ofNat (c.toNat + 32) else c

/-- Python `method.lower()` (ASCII). -/
def str_lower (s : String) : String := String.mk (s.data.map char_lower)

/-- Python `str.upper()` on one character (ASCII). -/
def char_upper (c : Char) : Char :=
  if 97 ≤ c.toNat ∧ c.toNat ≤ 122 then Char.ofNat (c.toNat - 32) else c

/-- Python `method.upper()` (ASCII). -/
def str_upper (s : String) : String := String.mk (s.data.map char_upper)

/-- The two fixed headers every request carries. -/
def base_headers : List (String × String) :=
  [("accept", "application/json"), ("content-type", "application/json")]

/-- The body of the `async with asyncio.timeout(600)` block in `_call`:
pick the session method by `method.lower()` (an unknown method raises
`RuntimeError` before any request is sent), send the request — recorded in
the trace with the timeout budget — and map `TimeoutError`, `ClientError`
and `gaierror` outcomes to `ClientConnectorException`.  GET and DELETE are
sent without a JSON body. -/
def dispatch (timeoutBudget : Nat) (method : String) (url : String)
    (headers : List (String × String)) (data : Option JVal) :
    ApiM HttpResponse := fun s =>
  let m := str_lower method
  if m = "post" ∨ m = "put" ∨ m = "delete" ∨ m = "get" then
    let body := if m = "post" ∨ m = "put" then data else none
    let entry : TraceEntry :=
      { method := method, url := url, headers := headers, body := body,
        timeoutBudget := timeoutBudget }
    match s.script with
    | [] => Res.err ApiError.NoScriptedResponse
        { s with trace := s.trace ++ [entry] }
    | r :: rest =>
        let s1 := { s with script := rest, trace := s.trace ++ [entry] }
        match r with
        | TransportResult.ok resp => Res.ok resp s1
        | TransportResult.hang => Res.err ApiError.ClientConnectorException s1
        | TransportResult.clientError =>
            Res.err ApiError.ClientConnectorException s1
        | TransportResult.gaiError =>
            Res.err ApiError.ClientConnectorException s1
  else
    Res.err (ApiError.RuntimeError "Method is not supported/implemented.") s

/-! ### `_call` and the session orchestration

`_call` is embedded in two layers.  `call_raw` is the body of `_call` after
its two opening lines (the sid-hash log line through the returned
envelope).  The full `_call` — `_check_authentification`, then
`_request_login`, then the body — is `call_impl`.  `call_login` and
`call_authentification_status` invoke `_call` with the actions `"login"`
and `"authentification_status"`, for which the orchestration guards make
`_check_authentification` a no-op (and, for `"login"`, `_request_login`
too); they are defined with those guards unfolded to break the mutual
recursion of the source, and the lemmas `check_authentification_login`,
`check_authentification_status_action` and `request_login_login` below
verify that the unfolded guards are indeed no-ops, so the stratified
definitions agree with the uniform `_call` of the source. -/

/-- The result dict of `_call`: `{"code", "reason", "data"}`. -/
structure Envelope where
  code : Int
  reason : String
  data : JVal

/-- Lines 132–135 of `api.py`, on the debug copy of a login response:
`result_data_debug["session"]["sid"] = "[redacted]"`.  The subscript read
of `"session"` raises `KeyError` when missing and `TypeError` when the
data or the session value is not a dict; the `"sid"` assignment itself
creates the key when absent.  `copy.deepcopy` is the identity in this pure
embedding. -/
def redact_login_sid (d : JVal) : Except ApiError JVal :=
  match d with
  | JVal.obj fields =>
      match jlookup fields "session" with
      | some (JVal.obj sf) =>
          Except.ok (JVal.obj (jset fields "session"
            (JVal.obj (jset sf "sid" (JVal.str "[redacted]")))))
      | some _ => Except.error ApiError.TypeError
      | none => Except.error (ApiError.KeyError "session")
  | _ => Except.error ApiError.TypeError

/-- The body of `_call` (lines 92–146 of `api.py`): log the sid hash, build
url and headers (attaching the `sid` header exactly when a token is held),
log the request line, dispatch under the 600-second timeout, log the status
code, classify the status via `handle_status`, then parse the body —
non-empty bodies must parse as JSON (`ContentTypeException` otherwise), a
login response additionally has its debug copy redacted (the copy is
discarded: the `Data:` log line is commented out in the source) — and
return the envelope.  An empty or rejected body yields `{}`. -/
def call_raw (cfg : Cfg) (action : Option String) (route : String)
    (method : String) (data : Option JVal) : ApiM Envelope := do
  let s ← getS
  logDebug ("Session ID Hash: " ++ renderOpt (get_sid_hash s.sid s.sid))
  let url := cfg.url ++ route
  let headers :=
    match s.sid with
    | some t => base_headers ++ [("sid", t)]
    | none => base_headers
  logDebug ("Request: " ++ str_upper method ++ " " ++ url)
  let request ← dispatch 600 method url headers data
  logDebug ("Status Code: " ++ toString request.status)
  liftE (handle_status request.status)
  let result_data ←
    if request.status < 400 ∧ request.text ≠ "" then
      match request.json with
      | none => ApiM.throw ApiError.ContentTypeException
      | some d =>
          if action = some "login" then
            match redact_login_sid d with
            | Except.ok _debugCopy => ApiM.pure d
            | Except.error e => ApiM.throw e
          else ApiM.pure d
    else ApiM.pure (JVal.obj [])
  ApiM.pure { code := request.status, reason := request.reason,
              data := result_data }

/-- Embeds `call_login` from `api.py`: `_call("/auth", action="login",
method="POST", data={"password": self._password})` — for which both
orchestration steps are no-ops — then
`self._sid = result["data"]["session"]["sid"]` and the envelope.

Model restriction: the source annotates `_sid: str | None`, so the
assignment accepts a JSON string (held token) or JSON null (no token);
any other JSON value for `sid` is embedded as a `TypeError`. -/
def call_login (cfg : Cfg) : ApiM Envelope := do
  let result ← call_raw cfg (some "login") "/auth" "POST"
    (some (JVal.obj [("password", JVal.str cfg.password)]))
  let session ← liftE (result.data.getKey "session")
  let sidv ← liftE (session.getKey "sid")
  match sidv with
  | JVal.str t => modifyS (fun s => { s with sid := some t })
  | JVal.null => modifyS (fun s => { s with sid := none })
  | _ => ApiM.throw ApiError.TypeError
  ApiM.pure { code := result.code, reason := result.reason,
              data := result.data }

/-- Embeds `_request_login` from `api.py`: for any action other than `"login"`,
log in first when no session token is held. -/
def request_login (cfg : Cfg) (action : String) : ApiM Unit := do
  let s ← getS
  if action ≠ "login" ∧ s.sid = none then
    let _ ← call_login cfg
    ApiM.pure ()
  else ApiM.pure ()

/-- Embeds `call_authentification_status` from `api.py`: `_call("/auth",
action="authentification_status", method="GET")` — for which
`_check_authentification` is a no-op by its own guard, while
`_request_login` applies — then the envelope. -/
def call_authentification_status (cfg : Cfg) : ApiM Envelope := do
  request_login cfg "authentification_status"
  let result ← call_raw cfg (some "authentification_status") "/auth" "GET"
    none
  ApiM.pure { code := result.code, reason := result.reason,
              data := result.data }

/-- Embeds `_check_authentification` from `api.py`: when the action is not
`"login"`/`"authentification_status"` and a token is held, run the validity
probe; clear the token when the probe's status is not 200 or (short-circuit
`or`) the body's `session.valid` is `False`.  The surrounding
`try/except UnauthorizedException` clears the token and swallows only that
error; every other error propagates. -/
def check_authentification_body (cfg : Cfg) (action : String) :
    ApiM Unit := do
  let s ← getS
  if action ≠ "login" ∧ action ≠ "authentification_status" ∧
      s.sid ≠ none then
    let response ← call_authentification_status cfg
    if response.code ≠ 200 then
      modifyS (fun s => { s with sid := none })
    else do
      let session ← liftE (response.data.getKey "session")
      let valid ← liftE (session.getKey "valid")
      match valid with
      | JVal.bool false => modifyS (fun s => { s with sid := none })
      | _ => ApiM.pure ()
  else ApiM.pure ()

/-- The `try/except UnauthorizedException` wrapper around the body: an
`UnauthorizedException` raised inside is swallowed and clears the held
token; any other outcome passes through. -/
def check_authentification (cfg : Cfg) (action : String) : ApiM Unit :=
  fun s0 =>
    match check_authentification_body cfg action s0 with
    | Res.ok a s1 => Res.ok a s1
    | Res.err ApiError.UnauthorizedException s1 =>
        Res.ok () { s1 with sid := none }
    | Res.err e s1 => Res.err e s1

/-- The full `_call` of `api.py` for a general action:
`_check_authentification`, then `_request_login`, then the dispatch body.
Every public operation other than `call_login` and
`call_authentification_status` goes through this. -/
def call_impl (cfg : Cfg) (action : String) (route : String)
    (method : String) (data : Option JVal) : ApiM Envelope := do
  check_authentification cfg action
  request_login cfg action
  call_raw cfg (some action) route method data

/-! ### Public operations -/

/-- Embeds `call_logout`: `DELETE /auth` with action `"logout"`, then clear the
held token and return the envelope. -/
def call_logout (cfg : Cfg) : ApiM Envelope := do
  let result ← call_impl cfg "logout" "/auth" "DELETE" none
  modifyS (fun s => { s with sid := none })
  ApiM.pure { code := result.code, reason := result.reason,
              data := result.data }

/-- Embeds `call_summary`: `GET /stats/summary`, then overwrite `cache_summary`
with the response data and return the envelope. -/
def call_summary (cfg : Cfg) : ApiM Envelope := do
  let result ← call_impl cfg "summary" "/stats/summary" "GET" none
  modifyS (fun s => { s with cache_summary := result.data })
  ApiM.pure { code := result.code, reason := result.reason,
              data := result.data }

/-- Embeds `call_padd`: `GET /padd?full=<bool>` (Python `str(full).lower()`), then
overwrite `cache_padd` with the response data and return the envelope. -/
def call_padd (cfg : Cfg) (full : Bool) : ApiM Envelope := do
  let result ← call_impl cfg "padd"
    ("/padd?full=" ++ (if full then "true" else "false")) "GET" none
  modifyS (fun s => { s with cache_padd := result.data })
  ApiM.pure { code := result.code, reason := result.reason,
              data := result.data }

/-- Embeds `call_blocking_status`: `GET /dns/blocking`, then overwrite
`cache_blocking` with the response data and return the envelope. -/
def call_blocking_status (cfg : Cfg) : ApiM Envelope := do
  let result ← call_impl cfg "blocking_status" "/dns/blocking" "GET" none
  modifyS (fun s => { s with cache_blocking := result.data })
  ApiM.pure { code := result.code, reason := result.reason,
              data := result.data }

/-- Embeds `call_blocking_enabled`: `POST /dns/blocking` with body
`{"blocking": True, "timer": None}`, then overwrite `cache_blocking`. -/
def call_blocking_enabled (cfg : Cfg) : ApiM Envelope := do
  let result ← call_impl cfg "blocking_enabled" "/dns/blocking" "POST"
    (some (JVal.obj [("blocking", JVal.bool true), ("timer", JVal.null)]))
  modifyS (fun s => { s with cache_blocking := result.data })
  ApiM.pure { code := result.code, reason := result.reason,
              data := result.data }

/-- Embeds `call_blocking_disabled(duration)`: `POST /dns/blocking` with body
`{"blocking": False, "timer": duration}` (`None` encodes as JSON null),
then overwrite `cache_blocking`.  The source defaults `duration` to 120. -/
def call_blocking_disabled (cfg : Cfg) (duration : Option Int) :
    ApiM Envelope := do
  let result ← call_impl cfg "blocking_disabled" "/dns/blocking" "POST"
    (some (JVal.obj [("blocking", JVal.bool false),
      ("timer", match duration with
                | some d => JVal.num d
                | none => JVal.null)]))
  modifyS (fun s => { s with cache_blocking := result.data })
  ApiM.pure { code := result.code, reason := result.reason,
              data := result.data }

/-- The loop body of `call_get_groups`: for each `group` in the response
list, upsert
`cache_groups[group["name"]] = {"name": ..., "comment": ..., "enabled": ...}`.
Missing keys raise `KeyError`, non-dict elements `TypeError`.

Model restriction: following the source's annotation
`cache_groups: dict[str, dict[str, Any]]`, a group name that is not a JSON
string is embedded as a `TypeError`. -/
def insert_groups : List JVal → ApiM Unit
  | [] => ApiM.pure ()
  | g :: rest => do
      let name ← liftE (g.getKey "name")
      let comment ← liftE (g.getKey "comment")
      let enabled ← liftE (g.getKey "enabled")
      let value := JVal.obj
        [("name", name), ("comment", comment), ("enabled", enabled)]
      match name with
      | JVal.str n =>
          modifyS (fun s =>
            { s with cache_groups := jset s.cache_groups n value })
      | _ => ApiM.throw ApiError.TypeError
      insert_groups rest

/-- Embeds `call_get_groups`: `GET /groups`, then iterate
`result["data"]["groups"]` upserting each listed group into
`cache_groups`, and return the envelope.  The cache is not cleared first:
entries whose names are absent from the response persist.

Model restriction: iteration requires the `groups` value to be a JSON
array; other values are embedded as `TypeError`. -/
def call_get_groups (cfg : Cfg) : ApiM Envelope := do
  let result ← call_impl cfg "groups" "/groups" "GET" none
  let groups ← liftE (result.data.getKey "groups")
  match groups with
  | JVal.arr gs => insert_groups gs
  | _ => ApiM.throw ApiError.TypeError
  ApiM.pure { code := result.code, reason := result.reason,
              data := result.data }

/-- Embeds `call_group_disable(group)`: read
`self.cache_groups[group]["comment"]` — evaluated, as in Python, before
`_call` is entered, so an unknown group raises `KeyError(group)` before any
request is dispatched — then `PUT /groups/{group}` with body
`{"name": group, "comment": <cached>, "enabled": False}` and return the
envelope.  The group caches are not updated. -/
def call_group_disable (cfg : Cfg) (group : String) : ApiM Envelope := do
  let s ← getS
  let entry ←
    match jlookup s.cache_groups group with
    | some v => ApiM.pure v
    | none => ApiM.throw (ApiError.KeyError group)
  let comment ← liftE (entry.getKey "comment")
  let result ← call_impl cfg "group-disable" ("/groups/" ++ group) "PUT"
    (some (JVal.obj [("name", JVal.str group), ("comment", comment),
      ("enabled", JVal.bool false)]))
  ApiM.pure { code := result.code, reason := result.reason,
              data := result.data }

/-- Embeds `call_group_enable(group)`: as `call_group_disable` but with
`"enabled": True`.  (The source passes the same action string
`"group-disable"` to `_call` here; the action only feeds the orchestration
guards, which treat the two alike.) -/
def call_group_enable (cfg : Cfg) (group : String) : ApiM Envelope := do
  let s ← getS
  let entry ←
    match jlookup s.cache_groups group with
    | some v => ApiM.pure v
    | none => ApiM.throw (ApiError.KeyError group)
  let comment ← liftE (entry.getKey "comment")
  let result ← call_impl cfg "group-disable" ("/groups/" ++ group) "PUT"
    (some (JVal.obj [("name", JVal.str group), ("comment", comment),
      ("enabled", JVal.bool true)]))
  ApiM.pure { code := result.code, reason := result.reason,
              data := result.data }

/-! ### Support definitions for the verification

Everything from here to the first theorem is specification vocabulary: frame
predicates for state-effect reasoning, well-formedness predicates, and the
concrete fixtures used by counterexamples and witnesses. -/

/-- Frame predicate: `Step P x` states that every run of `x` relates its initial state to its final
state (normal or raised) by `P`. -/
def Step (P : ClientState → ClientState → Prop) {α : Type} (x : ApiM α) :
    Prop :=
  ∀ s, P s (Res.state (x s))

/-- Closure conditions on a state relation `P` under every state effect the
client performs short of cache writes: the three debug-log line shapes of
`_call`, session-token assignment, and recording a dispatched request (with
the 600-second budget `_call` always passes).  `Step P` then holds for the
whole orchestration layer. -/
structure StepConds (P : ClientState → ClientState → Prop) : Prop where
  refl : ∀ s, P s s
  trans : ∀ a b c, P a b → P b c → P a c
  sid : ∀ s v, P s { s with sid := v }
  record : ∀ s mm uu hh bb rest,
    P s { s with script := rest, trace := s.trace ++ [⟨mm, uu, hh, bb, 600⟩] }
  recordEnd : ∀ s mm uu hh bb,
    P s { s with trace := s.trace ++ [⟨mm, uu, hh, bb, 600⟩] }
  logHash : ∀ s (sid0 : Option String),
    P s { s with
          log := s.log ++
            ["Session ID Hash: " ++ renderOpt (get_sid_hash sid0 sid0)] }
  logReq : ∀ s (mm uu : String),
    P s { s with log := s.log ++ ["Request: " ++ mm ++ " " ++ uu] }
  logStatus : ∀ s (st : Int),
    P s { s with log := s.log ++ ["Status Code: " ++ toString st] }

/-- The failure kinds of claim C6: a transport failure or an HTTP-status
failure raised by `handle_status` (including the unimplemented-status kind)
or a body that fails to parse — as opposed to the dict-access errors
(`KeyError`/`TypeError`) a malformed response body can raise after the
call succeeded at the HTTP level. -/
def IsCallFailure : ApiError → Prop
  | ApiError.ClientConnectorException => True
  | ApiError.ContentTypeException => True
  | ApiError.BadGatewayException => True
  | ApiError.BadRequestException => True
  | ApiError.ForbiddenException => True
  | ApiError.GatewayTimeoutException => True
  | ApiError.NotFoundException => True
  | ApiError.RequestFailedException => True
  | ApiError.ServerErrorException => True
  | ApiError.ServiceUnavailableException => True
  | ApiError.TooManyRequestsException => True
  | ApiError.UnauthorizedException => True
  | ApiError.NotImplementedError _ => True
  | _ => False

/-- The debug-log line shapes `_call` can emit: the session-id hash line
(which renders the token only through `get_sid_hash`, i.e. through
SHA-256), the request line (method and url) and the status-code line.  No
shape carries a session token or response data. -/
def GoodLine (line : String) : Prop :=
  (∃ sid0 : Option String,
    line = "Session ID Hash: " ++ renderOpt (get_sid_hash sid0 sid0)) ∨
  (∃ mm uu : String, line = "Request: " ++ mm ++ " " ++ uu) ∨
  (∃ st : Int, line = "Status Code: " ++ toString st)

/-- A well-formed group element of a `/groups` response: a JSON object
with a string `name` and `comment`/`enabled` keys present. -/
def GroupWF (g : JVal) : Prop :=
  ∃ n c e, g.getKey "name" = Except.ok (JVal.str n) ∧
    g.getKey "comment" = Except.ok c ∧ g.getKey "enabled" = Except.ok e

/-- The name of a well-formed group element (`""` otherwise; only applied
under `GroupWF`). -/
def groupName (g : JVal) : String :=
  match g.getKey "name" with
  | Except.ok (JVal.str n) => n
  | _ => ""

/-- The cache entry `call_get_groups` builds for a group element. -/
def groupEntry (g : JVal) : JVal :=
  JVal.obj [("name", JVal.str (groupName g)),
    ("comment", match g.getKey "comment" with
                | Except.ok c => c
                | _ => JVal.null),
    ("enabled", match g.getKey "enabled" with
                | Except.ok e => e
                | _ => JVal.null)]

/-- The cache contents after upserting a list of well-formed group
elements in order (the effect of the `call_get_groups` loop). -/
def apply_groups (cache : List (String × JVal)) :
    List JVal → List (String × JVal)
  | [] => cache
  | g :: rest => apply_groups (jset cache (groupName g) (groupEntry g)) rest

/-- A client state from its parts, in field order; the shorthand used by
the fixtures below. -/
def mkState (sid : Option String) (cb cp cs : JVal)
    (cg : List (String × JVal)) (script : List TransportResult)
    (tr : List TraceEntry) (lg : List String) : ClientState :=
  { sid := sid, cache_blocking := cb, cache_padd := cp, cache_summary := cs,
    cache_groups := cg, script := script, trace := tr, log := lg }

/-- Fixture: a scripted 200 response whose body reports the session
valid (used to let the pre-flight probe succeed in witnesses). -/
def probe_ok_entry (tok : String) : TransportResult :=
  TransportResult.ok
    { status := 200, reason := "OK", text := "x",
      json := some (JVal.obj [("session",
        JVal.obj [("sid", JVal.str tok), ("valid", JVal.bool true)])]) }

/-- Fixture: a scripted 200 login response issuing token `tok`. -/
def login_ok_entry (tok : String) : TransportResult :=
  TransportResult.ok
    { status := 200, reason := "OK", text := "x",
      json := some (JVal.obj [("session",
        JVal.obj [("sid", JVal.str tok), ("valid", JVal.bool true)])]) }

/-- Fixture: the group cache value for a group `n` with comment `c`. -/
def group_value (n c : String) (e : Bool) : JVal :=
  JVal.obj [("name", JVal.str n), ("comment", JVal.str c),
    ("enabled", JVal.bool e)]

/-- The value of a computation that returned normally, or `d`. -/
def Res.value {α : Type} (d : α) : Res α → α
  | Res.ok a _ => a
  | Res.err _ _ => d

/-- Placeholder envelope for `Res.value` projections. -/
def env0 : Envelope := { code := 0, reason := "", data := JVal.obj [] }

/-- Fixture configuration for counterexamples and witnesses. -/
def cfg_fix : Cfg := { url := "http://pi.hole", password := "pw" }

/-- Fixture for claim C4: a client holding a session and an existing
groups-cache entry `"old"`, scripted with a successful probe and a
`/groups` response listing only `"g1"`. -/
def cex_groups_state : ClientState :=
  mkState (some "T") (JVal.obj []) (JVal.obj []) (JVal.obj [])
    [("old", group_value "old" "oc" false)]
    [probe_ok_entry "T",
     TransportResult.ok
       { status := 200, reason := "OK", text := "x",
         json := some (JVal.obj [("groups",
           JVal.arr [group_value "g1" "c" true])]) }]
    [] []

/-- All four cache snapshots agree between two states (claim C6's
"snapshot left unchanged"). -/
def CachesEq (s s' : ClientState) : Prop :=
  s'.cache_blocking = s.cache_blocking ∧ s'.cache_padd = s.cache_padd ∧
  s'.cache_summary = s.cache_summary ∧ s'.cache_groups = s.cache_groups

/-- Every trace entry of the second state was already present or was
dispatched under the 600-second timeout budget (claim C7). -/
def Budget600 (s s' : ClientState) : Prop :=
  ∀ en ∈ s'.trace, en ∈ s.trace ∨ en.timeoutBudget = 600

/-- Every log line of the second state was already present or matches one
of the three fixed `_call` log-line shapes (claim C10). -/
def LogSafe (s s' : ClientState) : Prop :=
  ∀ line ∈ s'.log, line ∈ s.log ∨ GoodLine line

/-- The raised error of a computation, if any. -/
def Res.errorOf {α : Type} : Res α → Option ApiError
  | Res.ok _ _ => none
  | Res.err e _ => some e

/-! ## Theorems

First the general-purpose lemmas (status classification, association-list
facts, orchestration-guard no-ops, frame lemmas), then one theorem per
claim, each preceded by its claim id. -/

/-- Known-answer test: the NIST SHA-256 test vector for `"abc"`. -/
theorem sha256hex_abc_vector : sha256hex "abc" =
    "ba7816bf8f01cfea414140de5dae2223b00361a396177a9cb410ff61f20015ad" := by
  decide

/-- Known-answer test: the SHA-256 digest of the empty string. -/
theorem sha256hex_empty_vector : sha256hex "" =
    "e3b0c44298fc1c149afbf4c8996fb92427ae41e4649b934ca495991b7852b855" := by
  decide

/-- Statuses below 400 classify as success. -/
theorem handle_status_of_lt (c : Int) (h : c < 400) :
    handle_status c = Except.ok () := by
  simp [handle_status, h]

/-- Reading back the key just set. -/
theorem jlookup_jset_self (d : List (String × JVal)) (k : String) (v : JVal) :
    jlookup (jset d k v) k = some v := by
  induction d with
  | nil => simp [jset, jlookup]
  | cons p rest ih =>
      by_cases h : p.1 = k
      · simp [jset, h, jlookup]
      · cases p with
        | mk k0 v0 => simp_all [jset, jlookup]

/-- Setting one key leaves every other key's lookup unchanged. -/
theorem jlookup_jset_other (d : List (String × JVal)) (k : String) (v : JVal)
    (n : String) (h : n ≠ k) :
    jlookup (jset d k v) n = jlookup d n := by
  induction d with
  | nil => simp [jset, jlookup, Ne.symm h]
  | cons p rest ih =>
      cases p with
      | mk k0 v0 =>
        by_cases h0 : k0 = k
        · subst h0
          simp [jset, jlookup, Ne.symm h]
        · simp [jset, h0, jlookup]
          split
          · rfl
          · exact ih

/-- Guard sanity: `_check_authentification` is a no-op for the `login`
action, validating the stratified embedding of the mutually recursive
`_call`. -/
theorem check_authentification_login (cfg : Cfg) (s : ClientState) :
    check_authentification cfg "login" s = Res.ok () s := by
  simp [check_authentification, check_authentification_body, ApiM.bind_def,
    ApiM.bind, ApiM.pure_def, ApiM.pure, getS]

/-- Guard sanity: `_check_authentification` is a no-op for the
`authentification_status` action. -/
theorem check_authentification_status_action (cfg : Cfg) (s : ClientState) :
    check_authentification cfg "authentification_status" s = Res.ok () s := by
  simp [check_authentification, check_authentification_body, ApiM.bind_def,
    ApiM.bind, ApiM.pure_def, ApiM.pure, getS]

/-- Guard sanity: `_request_login` is a no-op for the `login` action. -/
theorem request_login_login (cfg : Cfg) (s : ClientState) :
    request_login cfg "login" s = Res.ok () s := by
  simp [request_login, ApiM.bind_def, ApiM.bind, ApiM.pure_def, ApiM.pure,
    getS]

/-- Guard sanity: the uniform `_call` at action `login` coincides with the
stratified `call_raw`-based definition used by `call_login`. -/
theorem call_impl_login_eq (cfg : Cfg) (route method : String)
    (data : Option JVal) (s : ClientState) :
    call_impl cfg "login" route method data s =
      call_raw cfg (some "login") route method data s := by
  simp [call_impl, ApiM.bind_def, ApiM.bind, check_authentification_login,
    request_login_login]

/-- C1: `handle_status` returns for every status below 400, raises exactly
the mapped exception for each of the ten mapped statuses, and raises
`NotImplementedError` carrying the status code for every unmapped status at
least 400. -/
theorem handle_status_contract :
    (∀ c : Int, c < 400 → handle_status c = Except.ok ()) ∧
    handle_status 400 = Except.error ApiError.BadRequestException ∧
    handle_status 401 = Except.error ApiError.UnauthorizedException ∧
    handle_status 402 = Except.error ApiError.RequestFailedException ∧
    handle_status 403 = Except.error ApiError.ForbiddenException ∧
    handle_status 404 = Except.error ApiError.NotFoundException ∧
    handle_status 429 = Except.error ApiError.TooManyRequestsException ∧
    handle_status 500 = Except.error ApiError.ServerErrorException ∧
    handle_status 502 = Except.error ApiError.BadGatewayException ∧
    handle_status 503 = Except.error ApiError.ServiceUnavailableException ∧
    handle_status 504 = Except.error ApiError.GatewayTimeoutException ∧
    (∀ c : Int, 400 ≤ c →
      c ∉ ([400, 401, 402, 403, 404, 429, 500, 502, 503, 504] : List Int) →
      handle_status c = Except.error (ApiError.NotImplementedError c)) := by
  refine ⟨fun c h => handle_status_of_lt c h, rfl, rfl, rfl, rfl, rfl, rfl,
    rfl, rfl, rfl, rfl, ?_⟩
  intro c hge hmem
  simp only [List.mem_cons, List.not_mem_nil, or_false, not_or] at hmem
  obtain ⟨h0, h1, h2, h3, h4, h5, h6, h7, h8, h9⟩ := hmem
  have e0 : (c == (400 : Int)) = false := beq_eq_false_iff_ne.mpr h0
  have e1 : (c == (401 : Int)) = false := beq_eq_false_iff_ne.mpr h1
  have e2 : (c == (402 : Int)) = false := beq_eq_false_iff_ne.mpr h2
  have e3 : (c == (403 : Int)) = false := beq_eq_false_iff_ne.mpr h3
  have e4 : (c == (404 : Int)) = false := beq_eq_false_iff_ne.mpr h4
  have e5 : (c == (429 : Int)) = false := beq_eq_false_iff_ne.mpr h5
  have e6 : (c == (500 : Int)) = false := beq_eq_false_iff_ne.mpr h6
  have e7 : (c == (502 : Int)) = false := beq_eq_false_iff_ne.mpr h7
  have e8 : (c == (503 : Int)) = false := beq_eq_false_iff_ne.mpr h8
  have e9 : (c == (504 : Int)) = false := beq_eq_false_iff_ne.mpr h9
  simp [handle_status, not_lt.mpr hge, exception_map, List.lookup,
    e0, e1, e2, e3, e4, e5, e6, e7, e8, e9]

/-- Witness for C1 at concrete statuses 399 (success) and 418 (unmapped). -/
theorem handle_status_contract_witness :
    handle_status 399 = Except.ok () ∧
    handle_status 418 = Except.error (ApiError.NotImplementedError 418) :=
  ⟨handle_status_contract.1 399 (by decide),
    handle_status_contract.2.2.2.2.2.2.2.2.2.2.2 418 (by decide) (by decide)⟩

/-- C3: a successful `call_login` returns normally with the parsed response
body, afterwards the held session token equals the body's `session.sid`
value, and the login request itself was dispatched with only the base
headers — no `sid` header — since no prior token was held. -/
theorem login_stores_sid (cfg : Cfg) (cb cp cs : JVal)
    (cg : List (String × JVal)) (rest : List TransportResult)
    (tr : List TraceEntry) (lg : List String)
    (lst : Int) (lr ltext : String) (fields sf : List (String × JVal))
    (tok : String)
    (hst : lst < 400) (htext : ltext ≠ "")
    (hsession : jlookup fields "session" = some (JVal.obj sf))
    (hsid : jlookup sf "sid" = some (JVal.str tok)) :
    (call_login cfg (mkState none cb cp cs cg
        (TransportResult.ok ⟨lst, lr, ltext, some (JVal.obj fields)⟩ :: rest)
        tr lg)).isOk = true ∧
    Res.value env0 (call_login cfg (mkState none cb cp cs cg
        (TransportResult.ok ⟨lst, lr, ltext, some (JVal.obj fields)⟩ :: rest)
        tr lg)) = ⟨lst, lr, JVal.obj fields⟩ ∧
    (Res.state (call_login cfg (mkState none cb cp cs cg
        (TransportResult.ok ⟨lst, lr, ltext, some (JVal.obj fields)⟩ :: rest)
        tr lg))).sid = some tok ∧
    (Res.state (call_login cfg (mkState none cb cp cs cg
        (TransportResult.ok ⟨lst, lr, ltext, some (JVal.obj fields)⟩ :: rest)
        tr lg))).trace = tr ++ [⟨"POST", cfg.url ++ "/auth", base_headers,
        some (JVal.obj [("password", JVal.str cfg.password)]), 600⟩] := by
  refine ⟨?_, ?_, ?_, ?_⟩ <;>
    simp [call_login, call_raw, mkState, ApiM.bind_def, ApiM.bind,
      ApiM.pure_def, ApiM.pure, getS, logDebug, modifyS, dispatch, liftE,
      redact_login_sid, JVal.getKey, get_sid_hash, renderOpt,
      show str_lower "POST" = "post" from rfl,
      handle_status_of_lt, hst, htext, hsession, hsid,
      Res.isOk, Res.state, Res.value]

/-- Witness for C3: a concrete login run stores the token `"NEW"`. -/
theorem login_stores_sid_witness :
    (Res.state (call_login cfg_fix (mkState none (JVal.obj []) (JVal.obj [])
        (JVal.obj []) [] [login_ok_entry "NEW"] [] []))).sid = some "NEW" :=
  (login_stores_sid cfg_fix (JVal.obj []) (JVal.obj []) (JVal.obj []) [] []
    [] [] 200 "OK" "x"
    [("session", JVal.obj [("sid", JVal.str "NEW"),
      ("valid", JVal.bool true)])]
    [("sid", JVal.str "NEW"), ("valid", JVal.bool true)] "NEW"
    (by decide) (by decide) rfl rfl).2.2.1

/-- C8: a `call_logout` whose DELETE request succeeds (any status below
400, any response body — empty or any parseable JSON) returns normally and
leaves the client with no held session token.  The script's first entry
serves the pre-flight probe, which reports the session valid. -/
theorem logout_clears_sid (cfg : Cfg) (t : String) (cb cp cs : JVal)
    (cg : List (String × JVal)) (rest : List TransportResult)
    (tr : List TraceEntry) (lg : List String)
    (pr ptext : String) (psf : List (String × JVal))
    (lst : Int) (lr ltext : String) (lj : Option JVal) (jd : JVal)
    (hptext : ptext ≠ "")
    (hpvalid : jlookup psf "valid" = some (JVal.bool true))
    (hlst : lst < 400)
    (hbody : ltext = "" ∨ lj = some jd) :
    (call_logout cfg (mkState (some t) cb cp cs cg
        (TransportResult.ok ⟨200, pr, ptext,
          some (JVal.obj [("session", JVal.obj psf)])⟩ ::
         TransportResult.ok ⟨lst, lr, ltext, lj⟩ :: rest) tr lg)).isOk =
      true ∧
    (Res.state (call_logout cfg (mkState (some t) cb cp cs cg
        (TransportResult.ok ⟨200, pr, ptext,
          some (JVal.obj [("session", JVal.obj psf)])⟩ ::
         TransportResult.ok ⟨lst, lr, ltext, lj⟩ :: rest) tr lg))).sid =
      none := by
  rcases hbody with hb | hb
  · subst hb
    constructor <;>
      simp [call_logout, call_impl, check_authentification,
        check_authentification_body,
        call_authentification_status, request_login, call_raw, mkState,
        ApiM.bind_def, ApiM.bind, ApiM.pure_def, ApiM.pure, getS, logDebug,
        modifyS, dispatch, liftE, JVal.getKey, jlookup, get_sid_hash,
        renderOpt,
        show str_lower "GET" = "get" from rfl,
        show str_lower "DELETE" = "delete" from rfl,
        handle_status_of_lt, hptext, hpvalid, hlst,
        Res.isOk, Res.state, Res.value]
  · subst hb
    by_cases he : ltext = "" <;>
    constructor <;>
      simp [call_logout, call_impl, check_authentification,
        check_authentification_body,
        call_authentification_status, request_login, call_raw, mkState,
        ApiM.bind_def, ApiM.bind, ApiM.pure_def, ApiM.pure, getS, logDebug,
        modifyS, dispatch, liftE, JVal.getKey, jlookup, get_sid_hash,
        renderOpt,
        show str_lower "GET" = "get" from rfl,
        show str_lower "DELETE" = "delete" from rfl,
        handle_status_of_lt, hptext, hpvalid, hlst, he,
        Res.isOk, Res.state, Res.value]

/-- Witness for C8: a concrete logout (probe ok, then an empty 204
response) clears the held token `"T"`. -/
theorem logout_clears_sid_witness :
    (Res.state (call_logout cfg_fix (mkState (some "T") (JVal.obj [])
        (JVal.obj []) (JVal.obj []) []
        [probe_ok_entry "T", TransportResult.ok ⟨204, "No Content", "", none⟩]
        [] []))).sid = none :=
  (logout_clears_sid cfg_fix "T" (JVal.obj []) (JVal.obj []) (JVal.obj [])
    [] [] [] [] "OK" "x"
    [("sid", JVal.str "T"), ("valid", JVal.bool true)]
    204 "No Content" "" none JVal.null
    (by decide) rfl (by decide) (Or.inl rfl)).2

/-- Projection: state of a normal result. -/
theorem res_state_ok {α : Type} (a : α) (s : ClientState) :
    Res.state (Res.ok a s) = s := rfl

/-- Projection: state of a raised result. -/
theorem res_state_err {α : Type} (e : ApiError) (s : ClientState) :
    Res.state (Res.err (α := α) e s) = s := rfl

/-- Projection: a normal result is ok. -/
theorem res_isOk_ok {α : Type} (a : α) (s : ClientState) :
    (Res.ok a s).isOk = true := rfl

/-- Projection: a raised result is not ok. -/
theorem res_isOk_err {α : Type} (e : ApiError) (s : ClientState) :
    (Res.err (α := α) e s).isOk = false := rfl

/-- Projection: value of a normal result. -/
theorem res_value_ok {α : Type} (d a : α) (s : ClientState) :
    Res.value d (Res.ok a s) = a := rfl

/-- Projection: value of a raised result is the placeholder. -/
theorem res_value_err {α : Type} (d : α) (e : ApiError) (s : ClientState) :
    Res.value d (Res.err e s) = d := rfl

set_option maxHeartbeats 1600000 in
/-- The workhorse for wire-format claims: a public operation — embedded as
`_call` for its action followed by any trace-preserving continuation `k`
(the operation's cache write and envelope construction) — run with a held
token `t`, a scripted probe response reporting the session valid, and any
scripted outcome for its own request, dispatches exactly the probe request
followed by its own request: method, url, base headers plus the `sid`
header, the JSON body for POST/PUT, and the 600-second budget. -/
theorem call_impl_probe_ok_trace (cfg : Cfg) (action route method : String)
    (data : Option JVal) (k : Envelope → ApiM Envelope) (t : String)
    (cb cp cs : JVal) (cg : List (String × JVal)) (te : TransportResult)
    (rest : List TransportResult) (tr : List TraceEntry) (lg : List String)
    (pr ptext : String) (psf : List (String × JVal))
    (ha1 : action ≠ "login") (ha2 : action ≠ "authentification_status")
    (hm : str_lower method = "post" ∨ str_lower method = "put" ∨
      str_lower method = "delete" ∨ str_lower method = "get")
    (hptext : ptext ≠ "")
    (hpvalid : jlookup psf "valid" = some (JVal.bool true))
    (hk : ∀ env s, (Res.state (k env s)).trace = s.trace) :
    (Res.state ((call_impl cfg action route method data >>= k)
        (mkState (some t) cb cp cs cg
          (TransportResult.ok ⟨200, pr, ptext,
            some (JVal.obj [("session", JVal.obj psf)])⟩ :: te :: rest)
          tr lg))).trace =
    tr ++ [⟨"GET", cfg.url ++ "/auth", base_headers ++ [("sid", t)], none, 600⟩,
      ⟨method, cfg.url ++ route, base_headers ++ [("sid", t)],
        if str_lower method = "post" ∨ str_lower method = "put" then data
        else none, 600⟩] := by
  rcases te with resp2 | _ | _ | _
  case hang | clientError | gaiError =>
    rcases hm with hm' | hm' | hm' | hm' <;>
      simp [call_impl, check_authentification,
        check_authentification_body, call_authentification_status,
        request_login, call_raw, mkState, ApiM.bind_def, ApiM.bind,
        ApiM.pure_def, ApiM.pure, ApiM.throw, getS, logDebug, modifyS,
        dispatch, liftE, JVal.getKey, jlookup, get_sid_hash, renderOpt,
        show str_lower "GET" = "get" from rfl,
        handle_status_of_lt, ha1, ha2, hm', hptext, hpvalid, hk,
        res_state_ok, res_state_err, res_isOk_ok, res_isOk_err,
        res_value_ok, res_value_err]
  case ok =>
    rcases hm with hm' | hm' | hm' | hm' <;>
      rcases hh : handle_status resp2.status with u | e <;>
      rcases hj : resp2.json with _ | jv <;>
      by_cases hc : resp2.status < 400 ∧ resp2.text ≠ "" <;>
      simp [call_impl, check_authentification,
        check_authentification_body, call_authentification_status,
        request_login, call_raw, mkState, ApiM.bind_def, ApiM.bind,
        ApiM.pure_def, ApiM.pure, ApiM.throw, getS, logDebug, modifyS,
        dispatch, liftE, JVal.getKey, jlookup, get_sid_hash, renderOpt,
        show str_lower "GET" = "get" from rfl,
        handle_status_of_lt, ha1, ha2, hm', hptext, hpvalid, hh, hj, hc, hk,
        res_state_ok, res_state_err, res_isOk_ok, res_isOk_err,
        res_value_ok, res_value_err]

/-- C5: with a held token and a valid-session probe scripted, whatever the
outcome of the operation's own request, `call_blocking_enabled` dispatches
`POST /dns/blocking` with body `{"blocking": true, "timer": null}`;
`call_blocking_disabled (some d)` with body
`{"blocking": false, "timer": d}`; and `call_blocking_disabled none` with a
body whose `timer` field is JSON null. -/
theorem blocking_bodies (cfg : Cfg) (t : String) (cb cp cs : JVal)
    (cg : List (String × JVal)) (te : TransportResult)
    (rest : List TransportResult) (tr : List TraceEntry) (lg : List String)
    (pr ptext : String) (psf : List (String × JVal)) (d : Int)
    (hptext : ptext ≠ "")
    (hpvalid : jlookup psf "valid" = some (JVal.bool true)) :
    ((Res.state (call_blocking_enabled cfg (mkState (some t) cb cp cs cg
        (TransportResult.ok ⟨200, pr, ptext,
          some (JVal.obj [("session", JVal.obj psf)])⟩ :: te :: rest)
        tr lg))).trace =
      tr ++ [⟨"GET", cfg.url ++ "/auth", base_headers ++ [("sid", t)],
          none, 600⟩,
        ⟨"POST", cfg.url ++ "/dns/blocking", base_headers ++ [("sid", t)],
          some (JVal.obj [("blocking", JVal.bool true),
            ("timer", JVal.null)]), 600⟩]) ∧
    ((Res.state (call_blocking_disabled cfg (some d)
        (mkState (some t) cb cp cs cg
          (TransportResult.ok ⟨200, pr, ptext,
            some (JVal.obj [("session", JVal.obj psf)])⟩ :: te :: rest)
          tr lg))).trace =
      tr ++ [⟨"GET", cfg.url ++ "/auth", base_headers ++ [("sid", t)],
          none, 600⟩,
        ⟨"POST", cfg.url ++ "/dns/blocking", base_headers ++ [("sid", t)],
          some (JVal.obj [("blocking", JVal.bool false),
            ("timer", JVal.num d)]), 600⟩]) ∧
    ((Res.state (call_blocking_disabled cfg none
        (mkState (some t) cb cp cs cg
          (TransportResult.ok ⟨200, pr, ptext,
            some (JVal.obj [("session", JVal.obj psf)])⟩ :: te :: rest)
          tr lg))).trace =
      tr ++ [⟨"GET", cfg.url ++ "/auth", base_headers ++ [("sid", t)],
          none, 600⟩,
        ⟨"POST", cfg.url ++ "/dns/blocking", base_headers ++ [("sid", t)],
          some (JVal.obj [("blocking", JVal.bool false),
            ("timer", JVal.null)]), 600⟩]) := by
  refine ⟨?_, ?_, ?_⟩
  · simpa [show str_lower "POST" = "post" from rfl] using
      call_impl_probe_ok_trace cfg "blocking_enabled" "/dns/blocking" "POST"
        (some (JVal.obj [("blocking", JVal.bool true), ("timer", JVal.null)]))
        (fun result => Bind.bind
          (modifyS (fun s => { s with cache_blocking := result.data }))
          (fun _ => ApiM.pure
            { code := result.code, reason := result.reason,
              data := result.data }))
        t cb cp cs cg te rest tr lg pr ptext psf (by decide) (by decide)
        (Or.inl rfl) hptext hpvalid (fun env s => rfl)
  · simpa [show str_lower "POST" = "post" from rfl] using
      call_impl_probe_ok_trace cfg "blocking_disabled" "/dns/blocking" "POST"
        (some (JVal.obj [("blocking", JVal.bool false),
          ("timer", JVal.num d)]))
        (fun result => Bind.bind
          (modifyS (fun s => { s with cache_blocking := result.data }))
          (fun _ => ApiM.pure
            { code := result.code, reason := result.reason,
              data := result.data }))
        t cb cp cs cg te rest tr lg pr ptext psf (by decide) (by decide)
        (Or.inl rfl) hptext hpvalid (fun env s => rfl)
  · simpa [show str_lower "POST" = "post" from rfl] using
      call_impl_probe_ok_trace cfg "blocking_disabled" "/dns/blocking" "POST"
        (some (JVal.obj [("blocking", JVal.bool false),
          ("timer", JVal.null)]))
        (fun result => Bind.bind
          (modifyS (fun s => { s with cache_blocking := result.data }))
          (fun _ => ApiM.pure
            { code := result.code, reason := result.reason,
              data := result.data }))
        t cb cp cs cg te rest tr lg pr ptext psf (by decide) (by decide)
        (Or.inl rfl) hptext hpvalid (fun env s => rfl)

/-- Witness for C5: a concrete `blocking_disable(duration=120)` dispatches
the probe and then the POST with body `{"blocking": false, "timer": 120}`. -/
theorem blocking_bodies_witness :
    (Res.state (call_blocking_disabled cfg_fix (some 120)
        (mkState (some "T") (JVal.obj []) (JVal.obj []) (JVal.obj []) []
          [probe_ok_entry "T",
           TransportResult.ok ⟨200, "OK", "x", some (JVal.obj [])⟩]
          [] []))).trace =
      [⟨"GET", cfg_fix.url ++ "/auth", base_headers ++ [("sid", "T")],
          none, 600⟩,
        ⟨"POST", cfg_fix.url ++ "/dns/blocking",
          base_headers ++ [("sid", "T")],
          some (JVal.obj [("blocking", JVal.bool false),
            ("timer", JVal.num 120)]), 600⟩] :=
  (blocking_bodies cfg_fix "T" (JVal.obj []) (JVal.obj []) (JVal.obj []) []
    (TransportResult.ok ⟨200, "OK", "x", some (JVal.obj [])⟩) [] [] []
    "OK" "x" [("sid", JVal.str "T"), ("valid", JVal.bool true)] 120
    (by decide) rfl).2.1

/-- C9: with a held token and a valid-session probe scripted,
`call_group_enable g` for a group present in the groups cache dispatches
`PUT /groups/g` with body `{"name": g, "comment": <the comment stored in
the cache entry>, "enabled": true}`, and `call_group_disable g` the same
body with `enabled` false; on a name absent from the cache both raise
`KeyError(g)` with the state untouched — no request is dispatched. -/
theorem group_put_bodies (cfg : Cfg) (t g : String) (c : JVal) (cb cp cs : JVal)
    (cg : List (String × JVal)) (entry : JVal) (te : TransportResult)
    (rest : List TransportResult) (tr : List TraceEntry) (lg : List String)
    (pr ptext : String) (psf : List (String × JVal))
    (hptext : ptext ≠ "")
    (hpvalid : jlookup psf "valid" = some (JVal.bool true)) :
    (jlookup cg g = some entry → entry.getKey "comment" = Except.ok c →
      (Res.state (call_group_enable cfg g (mkState (some t) cb cp cs cg
          (TransportResult.ok ⟨200, pr, ptext,
            some (JVal.obj [("session", JVal.obj psf)])⟩ :: te :: rest)
          tr lg))).trace =
        tr ++ [⟨"GET", cfg.url ++ "/auth", base_headers ++ [("sid", t)],
            none, 600⟩,
          ⟨"PUT", cfg.url ++ ("/groups/" ++ g), base_headers ++ [("sid", t)],
            some (JVal.obj [("name", JVal.str g), ("comment", c),
              ("enabled", JVal.bool true)]), 600⟩]) ∧
    (jlookup cg g = some entry → entry.getKey "comment" = Except.ok c →
      (Res.state (call_group_disable cfg g (mkState (some t) cb cp cs cg
          (TransportResult.ok ⟨200, pr, ptext,
            some (JVal.obj [("session", JVal.obj psf)])⟩ :: te :: rest)
          tr lg))).trace =
        tr ++ [⟨"GET", cfg.url ++ "/auth", base_headers ++ [("sid", t)],
            none, 600⟩,
          ⟨"PUT", cfg.url ++ ("/groups/" ++ g), base_headers ++ [("sid", t)],
            some (JVal.obj [("name", JVal.str g), ("comment", c),
              ("enabled", JVal.bool false)]), 600⟩]) ∧
    (jlookup cg g = none →
      call_group_enable cfg g (mkState (some t) cb cp cs cg
          (TransportResult.ok ⟨200, pr, ptext,
            some (JVal.obj [("session", JVal.obj psf)])⟩ :: te :: rest)
          tr lg) =
        Res.err (ApiError.KeyError g) (mkState (some t) cb cp cs cg
          (TransportResult.ok ⟨200, pr, ptext,
            some (JVal.obj [("session", JVal.obj psf)])⟩ :: te :: rest)
          tr lg)) ∧
    (jlookup cg g = none →
      call_group_disable cfg g (mkState (some t) cb cp cs cg
          (TransportResult.ok ⟨200, pr, ptext,
            some (JVal.obj [("session", JVal.obj psf)])⟩ :: te :: rest)
          tr lg) =
        Res.err (ApiError.KeyError g) (mkState (some t) cb cp cs cg
          (TransportResult.ok ⟨200, pr, ptext,
            some (JVal.obj [("session", JVal.obj psf)])⟩ :: te :: rest)
          tr lg)) := by
  refine ⟨?_, ?_, ?_, ?_⟩
  · intro hlookup hcomment
    have h := call_impl_probe_ok_trace cfg "group-disable"
      ("/groups/" ++ g) "PUT"
      (some (JVal.obj [("name", JVal.str g), ("comment", c),
        ("enabled", JVal.bool true)]))
      (fun result => ApiM.pure
        { code := result.code, reason := result.reason,
          data := result.data })
      t cb cp cs cg te rest tr lg pr ptext psf (by decide) (by decide)
      (Or.inr (Or.inl rfl)) hptext hpvalid (fun env s => rfl)
    simp only [call_group_enable, ApiM.bind_def, ApiM.bind, getS, mkState,
      hlookup, hcomment, liftE, ApiM.pure] at h ⊢
    simpa [show str_lower "PUT" = "put" from rfl] using h
  · intro hlookup hcomment
    have h := call_impl_probe_ok_trace cfg "group-disable"
      ("/groups/" ++ g) "PUT"
      (some (JVal.obj [("name", JVal.str g), ("comment", c),
        ("enabled", JVal.bool false)]))
      (fun result => ApiM.pure
        { code := result.code, reason := result.reason,
          data := result.data })
      t cb cp cs cg te rest tr lg pr ptext psf (by decide) (by decide)
      (Or.inr (Or.inl rfl)) hptext hpvalid (fun env s => rfl)
    simp only [call_group_disable, ApiM.bind_def, ApiM.bind, getS, mkState,
      hlookup, hcomment, liftE, ApiM.pure] at h ⊢
    simpa [show str_lower "PUT" = "put" from rfl] using h
  · intro hlookup
    simp [call_group_enable, ApiM.bind_def, ApiM.bind, ApiM.throw, getS,
      mkState, hlookup]
  · intro hlookup
    simp [call_group_disable, ApiM.bind_def, ApiM.bind, ApiM.throw, getS,
      mkState, hlookup]

/-- Witness for C9: a concrete `group_enable("g1")` with cached comment
`"c"` dispatches the PUT with the carried-over comment. -/
theorem group_put_bodies_witness :
    (Res.state (call_group_enable cfg_fix "g1" (mkState (some "T")
        (JVal.obj []) (JVal.obj []) (JVal.obj [])
        [("g1", group_value "g1" "c" true)]
        [probe_ok_entry "T",
         TransportResult.ok ⟨200, "OK", "x", some (JVal.obj [])⟩]
        [] []))).trace =
      [⟨"GET", cfg_fix.url ++ "/auth", base_headers ++ [("sid", "T")],
          none, 600⟩,
        ⟨"PUT", cfg_fix.url ++ ("/groups/" ++ "g1"),
          base_headers ++ [("sid", "T")],
          some (JVal.obj [("name", JVal.str "g1"),
            ("comment", JVal.str "c"), ("enabled", JVal.bool true)]),
          600⟩] :=
  (group_put_bodies cfg_fix "T" "g1" (JVal.str "c") (JVal.obj [])
    (JVal.obj []) (JVal.obj []) [("g1", group_value "g1" "c" true)]
    (group_value "g1" "c" true)
    (TransportResult.ok ⟨200, "OK", "x", some (JVal.obj [])⟩) [] [] []
    "OK" "x" [("sid", JVal.str "T"), ("valid", JVal.bool true)]
    (by decide) rfl).1 rfl rfl

set_option maxHeartbeats 1600000 in
/-- A failing pre-flight probe clears the held token without propagating:
with a held token `t` and a scripted probe response that either carries
status 401 (whose `UnauthorizedException` the `except` clause swallows),
or a sub-400 status other than 200, or a 200 body reporting
`session.valid` false, `_check_authentification` returns normally with the
token cleared, one probe request dispatched and three log lines added. -/
theorem check_auth_bad_probe (cfg : Cfg) (action t : String)
    (cb cp cs : JVal) (cg : List (String × JVal))
    (srest : List TransportResult) (tr : List TraceEntry) (lg : List String)
    (pst : Int) (pr ptext : String) (pjson : Option JVal) (pj : JVal)
    (psf : List (String × JVal))
    (ha1 : action ≠ "login") (ha2 : action ≠ "authentification_status")
    (hbad : pst = 401 ∨
      (pst < 400 ∧ pst ≠ 200 ∧ (ptext = "" ∨ pjson = some pj)) ∨
      (pst = 200 ∧ ptext ≠ "" ∧
        pjson = some (JVal.obj [("session", JVal.obj psf)]) ∧
        jlookup psf "valid" = some (JVal.bool false))) :
    check_authentification cfg action (mkState (some t) cb cp cs cg
      (TransportResult.ok ⟨pst, pr, ptext, pjson⟩ :: srest) tr lg) =
    Res.ok () (mkState none cb cp cs cg srest
      (tr ++ [⟨"GET", cfg.url ++ "/auth", base_headers ++ [("sid", t)],
        none, 600⟩])
      (lg ++ ["Session ID Hash: " ++ sha256hex t,
        "Request: " ++ str_upper "GET" ++ " " ++ (cfg.url ++ "/auth"),
        "Status Code: " ++ toString pst])) := by
  rcases hbad with hb | ⟨hlt, hne, hb | hb⟩ | ⟨h200, hptext, hjson, hvalid⟩
  · subst hb
    simp [check_authentification, check_authentification_body,
      call_authentification_status,
      request_login, call_raw, mkState, ApiM.bind_def, ApiM.bind,
      ApiM.pure_def, ApiM.pure, ApiM.throw, getS, logDebug, modifyS,
      dispatch, liftE, JVal.getKey, jlookup, get_sid_hash, renderOpt,
      show str_lower "GET" = "get" from rfl, ha1, ha2,
      show handle_status 401 = Except.error ApiError.UnauthorizedException
        from rfl]
  · subst hb
    simp [check_authentification, check_authentification_body,
      call_authentification_status,
      request_login, call_raw, mkState, ApiM.bind_def, ApiM.bind,
      ApiM.pure_def, ApiM.pure, ApiM.throw, getS, logDebug, modifyS,
      dispatch, liftE, JVal.getKey, jlookup, get_sid_hash, renderOpt,
      show str_lower "GET" = "get" from rfl, ha1, ha2,
      handle_status_of_lt, hlt, hne]
  · subst hb
    by_cases he : ptext = "" <;>
      simp [check_authentification, check_authentification_body,
      call_authentification_status,
        request_login, call_raw, mkState, ApiM.bind_def, ApiM.bind,
        ApiM.pure_def, ApiM.pure, ApiM.throw, getS, logDebug, modifyS,
        dispatch, liftE, JVal.getKey, jlookup, get_sid_hash, renderOpt,
        show str_lower "GET" = "get" from rfl, ha1, ha2,
        handle_status_of_lt, hlt, hne, he]
  · subst h200
    subst hjson
    simp [check_authentification, check_authentification_body,
      call_authentification_status,
      request_login, call_raw, mkState, ApiM.bind_def, ApiM.bind,
      ApiM.pure_def, ApiM.pure, ApiM.throw, getS, logDebug, modifyS,
      dispatch, liftE, JVal.getKey, jlookup, get_sid_hash, renderOpt,
      show str_lower "GET" = "get" from rfl, ha1, ha2,
      show handle_status 200 = Except.ok () from rfl, hptext, hvalid]

/-- Lemma: `_request_login` with no held token performs a login: with a scripted
successful login response issuing `newTok`, it returns normally holding
`newTok`, having dispatched the login POST without a `sid` header. -/
theorem request_login_performs_login (cfg : Cfg) (action t : String)
    (cb cp cs : JVal) (cg : List (String × JVal))
    (srest : List TransportResult) (tr : List TraceEntry) (lg : List String)
    (lst : Int) (lr ltext : String) (lsf : List (String × JVal))
    (newTok : String)
    (ha : action ≠ "login")
    (hlst : lst < 400) (hltext : ltext ≠ "")
    (hsid : jlookup lsf "sid" = some (JVal.str newTok)) :
    request_login cfg action (mkState none cb cp cs cg
      (TransportResult.ok ⟨lst, lr, ltext,
        some (JVal.obj [("session", JVal.obj lsf)])⟩ :: srest) tr lg) =
    Res.ok () (mkState (some newTok) cb cp cs cg srest
      (tr ++ [⟨"POST", cfg.url ++ "/auth", base_headers,
        some (JVal.obj [("password", JVal.str cfg.password)]), 600⟩])
      (lg ++ ["Session ID Hash: None",
        "Request: " ++ str_upper "POST" ++ " " ++ (cfg.url ++ "/auth"),
        "Status Code: " ++ toString lst])) := by
  simp [request_login, call_login, call_raw, mkState, ApiM.bind_def,
    ApiM.bind, ApiM.pure_def, ApiM.pure, ApiM.throw, getS, logDebug,
    modifyS, dispatch, liftE, JVal.getKey, jlookup, get_sid_hash, renderOpt,
    redact_login_sid, jset,
    show str_lower "POST" = "post" from rfl,
    handle_status_of_lt, ha, hlst, hltext, hsid]

set_option maxHeartbeats 800000 in
/-- The dispatch body of `_call` on a held token records exactly its own
request — method, url, base headers plus `sid`, body for POST/PUT — in
the trace, whatever the scripted outcome. -/
theorem call_raw_target_trace (cfg : Cfg) (action route method : String)
    (data : Option JVal) (tok : String) (cb cp cs : JVal)
    (cg : List (String × JVal)) (te : TransportResult)
    (rest : List TransportResult) (tr : List TraceEntry) (lg : List String)
    (ha : action ≠ "login")
    (hm : str_lower method = "post" ∨ str_lower method = "put" ∨
      str_lower method = "delete" ∨ str_lower method = "get") :
    (Res.state (call_raw cfg (some action) route method data
        (mkState (some tok) cb cp cs cg (te :: rest) tr lg))).trace =
    tr ++ [⟨method, cfg.url ++ route, base_headers ++ [("sid", tok)],
      if str_lower method = "post" ∨ str_lower method = "put" then data
      else none, 600⟩] := by
  rcases te with resp2 | _ | _ | _
  case hang | clientError | gaiError =>
    rcases hm with hm' | hm' | hm' | hm' <;>
      simp [call_raw, mkState, ApiM.bind_def, ApiM.bind, ApiM.pure_def,
        ApiM.pure, ApiM.throw, getS, logDebug, modifyS, dispatch, liftE,
        JVal.getKey, jlookup, get_sid_hash, renderOpt,
        handle_status_of_lt, ha, hm',
        res_state_ok, res_state_err]
  case ok =>
    rcases hm with hm' | hm' | hm' | hm' <;>
      rcases hh : handle_status resp2.status with u | e <;>
      rcases hj : resp2.json with _ | jv <;>
      by_cases hc : resp2.status < 400 ∧ resp2.text ≠ "" <;>
      simp [call_raw, mkState, ApiM.bind_def, ApiM.bind, ApiM.pure_def,
        ApiM.pure, ApiM.throw, getS, logDebug, modifyS, dispatch, liftE,
        JVal.getKey, jlookup, get_sid_hash, renderOpt,
        handle_status_of_lt, ha, hm', hh, hj, hc,
        res_state_ok, res_state_err]

/-- C2: for any action other than `login`/`authentification_status`, when
a token is held and the scripted probe either raises Unauthorized (401),
or returns a non-200 sub-400 status, or reports `session.valid` false:
the pre-flight check returns normally (the probe's error is not
propagated) with the held token cleared, and the full `_call` dispatches,
in order, the probe request (with the old token), a fresh login request
(without a `sid` header), and the operation's own request (with the newly
issued token).  A probe response with a status ≥ 400 other than 401 raises
its mapped exception rather than returning, so only 401 and sub-400
statuses are "returned" in the sense of the claim. -/
theorem preflight_relogin_order (cfg : Cfg) (action route method : String)
    (data : Option JVal) (t : String) (cb cp cs : JVal)
    (cg : List (String × JVal)) (te : TransportResult)
    (rest : List TransportResult) (tr : List TraceEntry) (lg : List String)
    (pst : Int) (pr ptext : String) (pjson : Option JVal) (pj : JVal)
    (psf : List (String × JVal))
    (lst : Int) (lr ltext : String) (lsf : List (String × JVal))
    (newTok : String)
    (ha1 : action ≠ "login") (ha2 : action ≠ "authentification_status")
    (hm : str_lower method = "post" ∨ str_lower method = "put" ∨
      str_lower method = "delete" ∨ str_lower method = "get")
    (hbad : pst = 401 ∨
      (pst < 400 ∧ pst ≠ 200 ∧ (ptext = "" ∨ pjson = some pj)) ∨
      (pst = 200 ∧ ptext ≠ "" ∧
        pjson = some (JVal.obj [("session", JVal.obj psf)]) ∧
        jlookup psf "valid" = some (JVal.bool false)))
    (hlst : lst < 400) (hltext : ltext ≠ "")
    (hlsid : jlookup lsf "sid" = some (JVal.str newTok)) :
    (check_authentification cfg action (mkState (some t) cb cp cs cg
        (TransportResult.ok ⟨pst, pr, ptext, pjson⟩ ::
         TransportResult.ok ⟨lst, lr, ltext,
           some (JVal.obj [("session", JVal.obj lsf)])⟩ :: te :: rest)
        tr lg)).isOk = true ∧
    (Res.state (check_authentification cfg action (mkState (some t) cb cp cs
        cg (TransportResult.ok ⟨pst, pr, ptext, pjson⟩ ::
         TransportResult.ok ⟨lst, lr, ltext,
           some (JVal.obj [("session", JVal.obj lsf)])⟩ :: te :: rest)
        tr lg))).sid = none ∧
    (Res.state (call_impl cfg action route method data
        (mkState (some t) cb cp cs cg
          (TransportResult.ok ⟨pst, pr, ptext, pjson⟩ ::
           TransportResult.ok ⟨lst, lr, ltext,
             some (JVal.obj [("session", JVal.obj lsf)])⟩ :: te :: rest)
          tr lg))).trace =
      tr ++ [⟨"GET", cfg.url ++ "/auth", base_headers ++ [("sid", t)],
          none, 600⟩,
        ⟨"POST", cfg.url ++ "/auth", base_headers,
          some (JVal.obj [("password", JVal.str cfg.password)]), 600⟩,
        ⟨method, cfg.url ++ route, base_headers ++ [("sid", newTok)],
          if str_lower method = "post" ∨ str_lower method = "put" then data
          else none, 600⟩] := by
  have h1 := check_auth_bad_probe cfg action t cb cp cs cg
    (TransportResult.ok ⟨lst, lr, ltext,
      some (JVal.obj [("session", JVal.obj lsf)])⟩ :: te :: rest) tr lg
    pst pr ptext pjson pj psf ha1 ha2 hbad
  refine ⟨?_, ?_, ?_⟩
  · rw [h1]; rfl
  · rw [h1]; rfl
  · have h2 := request_login_performs_login cfg action t cb cp cs cg
      (te :: rest)
      (tr ++ [⟨"GET", cfg.url ++ "/auth", base_headers ++ [("sid", t)],
        none, 600⟩])
      (lg ++ ["Session ID Hash: " ++ sha256hex t,
        "Request: " ++ str_upper "GET" ++ " " ++ (cfg.url ++ "/auth"),
        "Status Code: " ++ toString pst])
      lst lr ltext lsf newTok ha1 hlst hltext hlsid
    have h3 := call_raw_target_trace cfg action route method data newTok
      cb cp cs cg te rest
      ((tr ++ [⟨"GET", cfg.url ++ "/auth", base_headers ++ [("sid", t)],
        none, 600⟩]) ++
       [⟨"POST", cfg.url ++ "/auth", base_headers,
        some (JVal.obj [("password", JVal.str cfg.password)]), 600⟩])
      ((lg ++ ["Session ID Hash: " ++ sha256hex t,
        "Request: " ++ str_upper "GET" ++ " " ++ (cfg.url ++ "/auth"),
        "Status Code: " ++ toString pst]) ++
       ["Session ID Hash: None",
        "Request: " ++ str_upper "POST" ++ " " ++ (cfg.url ++ "/auth"),
        "Status Code: " ++ toString lst])
      ha1 hm
    simp only [call_impl, ApiM.bind_def, ApiM.bind, h1, h2]
    simpa using h3

/-- Witness for C2: with a 401 probe, a login issuing `"NEW"`, and a
summary response scripted, `call_impl` for the summary action dispatches
probe, login and target in order. -/
theorem preflight_relogin_order_witness :
    (Res.state (call_impl cfg_fix "summary" "/stats/summary" "GET" none
        (mkState (some "T") (JVal.obj []) (JVal.obj []) (JVal.obj []) []
          [TransportResult.ok ⟨401, "Unauthorized", "", none⟩,
           login_ok_entry "NEW",
           TransportResult.ok ⟨200, "OK", "x", some (JVal.obj [])⟩]
          [] []))).trace =
      [⟨"GET", cfg_fix.url ++ "/auth", base_headers ++ [("sid", "T")],
          none, 600⟩,
        ⟨"POST", cfg_fix.url ++ "/auth", base_headers,
          some (JVal.obj [("password", JVal.str cfg_fix.password)]), 600⟩,
        ⟨"GET", cfg_fix.url ++ "/stats/summary",
          base_headers ++ [("sid", "NEW")], none, 600⟩] := by
  have h := (preflight_relogin_order cfg_fix "summary" "/stats/summary"
    "GET" none "T" (JVal.obj []) (JVal.obj []) (JVal.obj []) []
    (TransportResult.ok ⟨200, "OK", "x", some (JVal.obj [])⟩) [] [] []
    401 "Unauthorized" "" none JVal.null []
    200 "OK" "x" [("sid", JVal.str "NEW"), ("valid", JVal.bool true)] "NEW"
    (by decide) (by decide) (Or.inr (Or.inr (Or.inr rfl))) (Or.inl rfl)
    (by decide) (by decide) rfl).2.2
  simpa using h

/-- Running the `call_get_groups` loop over well-formed group elements
returns normally and replaces the groups cache by the fold of upserts. -/
theorem insert_groups_run (gs : List JVal) (hwf : ∀ g ∈ gs, GroupWF g) :
    ∀ s : ClientState, insert_groups gs s =
      Res.ok () { s with cache_groups := apply_groups s.cache_groups gs } := by
  induction gs with
  | nil => intro s; simp [insert_groups, apply_groups, ApiM.pure]
  | cons g rest ih =>
      intro s
      obtain ⟨n, c, e, hn, hc, he⟩ := hwf g (List.mem_cons_self g rest)
      have ihr := ih (fun g hg => hwf g (List.mem_cons_of_mem _ hg))
      simp [insert_groups, apply_groups, ApiM.bind_def, ApiM.bind,
        ApiM.pure_def, ApiM.pure, liftE, modifyS, hn, hc, he, ihr,
        groupName, groupEntry]

/-- Upserting group elements leaves lookups of unlisted names unchanged. -/
theorem apply_groups_lookup_other (gs : List JVal) (n : String)
    (h : n ∉ gs.map groupName) :
    ∀ cache, jlookup (apply_groups cache gs) n = jlookup cache n := by
  induction gs with
  | nil => intro cache; simp [apply_groups]
  | cons g rest ih =>
      intro cache
      simp only [List.map_cons, List.mem_cons, not_or] at h
      rw [apply_groups, ih h.2, jlookup_jset_other _ _ _ _ h.1]

/-- With distinct names, every listed group's final cache entry is the
entry built from the response. -/
theorem apply_groups_lookup_mem (gs : List JVal)
    (hnodup : (gs.map groupName).Nodup) :
    ∀ cache, ∀ g ∈ gs,
      jlookup (apply_groups cache gs) (groupName g) = some (groupEntry g) := by
  induction gs with
  | nil => intro cache g hg; simp at hg
  | cons g0 rest ih =>
      intro cache g hg
      simp only [List.map_cons, List.nodup_cons] at hnodup
      rcases List.mem_cons.mp hg with hg0 | hgr
      · subst hg0
        rw [apply_groups,
          apply_groups_lookup_other rest (groupName g) hnodup.1,
          jlookup_jset_self]
      · rw [apply_groups]
        exact ih hnodup.2 _ g hgr

/-- C4 (amended): a successful `call_get_groups` merges the response into
the groups cache by name: every listed group (names distinct, entries
well-formed) ends up mapped to its `{name, comment, enabled}` entry from
the response, while entries for names absent from the response persist
unchanged — the cache is upserted, not rebuilt from scratch. -/
theorem list_groups_merges_cache (cfg : Cfg) (t : String) (cb cp cs : JVal)
    (cg : List (String × JVal)) (rest : List TransportResult)
    (tr : List TraceEntry) (lg : List String)
    (pr ptext : String) (psf : List (String × JVal))
    (gr gtext : String) (gfields : List (String × JVal)) (gs : List JVal)
    (hptext : ptext ≠ "")
    (hpvalid : jlookup psf "valid" = some (JVal.bool true))
    (hgtext : gtext ≠ "")
    (hgroups : jlookup gfields "groups" = some (JVal.arr gs))
    (hwf : ∀ g ∈ gs, GroupWF g)
    (hnodup : (gs.map groupName).Nodup) :
    (call_get_groups cfg (mkState (some t) cb cp cs cg
        (TransportResult.ok ⟨200, pr, ptext,
          some (JVal.obj [("session", JVal.obj psf)])⟩ ::
         TransportResult.ok ⟨200, gr, gtext, some (JVal.obj gfields)⟩ ::
         rest) tr lg)).isOk = true ∧
    (∀ g ∈ gs, jlookup ((Res.state (call_get_groups cfg (mkState (some t)
        cb cp cs cg
        (TransportResult.ok ⟨200, pr, ptext,
          some (JVal.obj [("session", JVal.obj psf)])⟩ ::
         TransportResult.ok ⟨200, gr, gtext, some (JVal.obj gfields)⟩ ::
         rest) tr lg))).cache_groups) (groupName g) =
      some (groupEntry g)) ∧
    (∀ n : String, n ∉ gs.map groupName →
      jlookup ((Res.state (call_get_groups cfg (mkState (some t) cb cp cs cg
        (TransportResult.ok ⟨200, pr, ptext,
          some (JVal.obj [("session", JVal.obj psf)])⟩ ::
         TransportResult.ok ⟨200, gr, gtext, some (JVal.obj gfields)⟩ ::
         rest) tr lg))).cache_groups) n = jlookup cg n) := by
  have key : (Res.state (call_get_groups cfg (mkState (some t) cb cp cs cg
      (TransportResult.ok ⟨200, pr, ptext,
        some (JVal.obj [("session", JVal.obj psf)])⟩ ::
       TransportResult.ok ⟨200, gr, gtext, some (JVal.obj gfields)⟩ ::
       rest) tr lg))).cache_groups = apply_groups cg gs := by
    simp [call_get_groups, call_impl, check_authentification,
      check_authentification_body,
      call_authentification_status, request_login, call_raw, mkState,
      ApiM.bind_def, ApiM.bind, ApiM.pure_def, ApiM.pure, ApiM.throw, getS,
      logDebug, modifyS, dispatch, liftE, JVal.getKey, jlookup,
      get_sid_hash, renderOpt,
      show str_lower "GET" = "get" from rfl,
      handle_status_of_lt, hptext, hpvalid, hgtext, hgroups,
      insert_groups_run gs hwf, res_state_ok, res_state_err]
  refine ⟨?_, ?_, ?_⟩
  · simp [call_get_groups, call_impl, check_authentification,
      check_authentification_body,
      call_authentification_status, request_login, call_raw, mkState,
      ApiM.bind_def, ApiM.bind, ApiM.pure_def, ApiM.pure, ApiM.throw, getS,
      logDebug, modifyS, dispatch, liftE, JVal.getKey, jlookup,
      get_sid_hash, renderOpt,
      show str_lower "GET" = "get" from rfl,
      handle_status_of_lt, hptext, hpvalid, hgtext, hgroups,
      insert_groups_run gs hwf, res_isOk_ok, res_isOk_err]
  · intro g hg
    rw [key]
    exact apply_groups_lookup_mem gs hnodup cg g hg
  · intro n hn
    rw [key]
    exact apply_groups_lookup_other gs n hn cg

/-- Counterexample to C4 as stated: starting from a cache holding an entry
`"old"`, a successful `call_get_groups` on a response listing only `"g1"`
leaves a cache different from the claimed
`{"g1": {"name": "g1", "comment": "c", "enabled": true}}` — the stale
`"old"` entry survives. -/
theorem groups_cache_not_rebuilt :
    (call_get_groups cfg_fix cex_groups_state).isOk = true ∧
    (Res.state (call_get_groups cfg_fix cex_groups_state)).cache_groups ≠
      [("g1", group_value "g1" "c" true)] := by
  constructor
  · rfl
  · intro h
    have h2 : (Res.state (call_get_groups cfg_fix
        cex_groups_state)).cache_groups =
        [("old", group_value "old" "oc" false),
         ("g1", group_value "g1" "c" true)] := rfl
    rw [h2] at h
    exact absurd (congrArg List.length h) (by decide)

/-- Witness for the amended C4 at the counterexample fixture: the listed
group `"g1"` is found in the final cache with its response entry. -/
theorem list_groups_merges_cache_witness :
    jlookup ((Res.state (call_get_groups cfg_fix
        cex_groups_state)).cache_groups)
      (groupName (group_value "g1" "c" true)) =
      some (groupEntry (group_value "g1" "c" true)) := by
  have hwf : ∀ g ∈ [group_value "g1" "c" true], GroupWF g := by
    intro g hg
    simp only [List.mem_singleton] at hg
    subst hg
    exact ⟨"g1", JVal.str "c", JVal.bool true, rfl, rfl, rfl⟩
  exact (list_groups_merges_cache cfg_fix "T" (JVal.obj []) (JVal.obj [])
    (JVal.obj []) [("old", group_value "old" "oc" false)] [] [] []
    "OK" "x" [("sid", JVal.str "T"), ("valid", JVal.bool true)]
    "OK" "x" [("groups", JVal.arr [group_value "g1" "c" true])]
    [group_value "g1" "c" true]
    (by decide) rfl (by decide) rfl hwf (by decide)).2.1
    (group_value "g1" "c" true) (List.mem_singleton.mpr rfl)

/-! ### State-effect frame lemmas

`Step P x` propagates a relation `P` (closed under the client's state
effects, `StepConds`) through every computation of the embedding.  These
are used for the cache-stability, timeout-budget and log-discipline
claims. -/

theorem Step.bind {P : ClientState → ClientState → Prop}
    (htrans : ∀ a b c, P a b → P b c → P a c)
    {α β : Type} {x : ApiM α} {f : α → ApiM β}
    (hx : Step P x) (hf : ∀ a, Step P (f a)) : Step P (ApiM.bind x f) := by
  intro s
  have h1 := hx s
  unfold ApiM.bind
  cases hxs : x s with
  | ok a s1 =>
      rw [hxs] at h1
      exact htrans _ _ _ h1 (hf a s1)
  | err e s1 =>
      rw [hxs] at h1
      exact h1

theorem step_pure {P} (h : StepConds P) {α : Type} (a : α) :
    Step P (ApiM.pure a) := fun s => h.refl s

theorem step_throw {P} (h : StepConds P) {α : Type} (e : ApiError) :
    Step P (ApiM.throw (α := α) e) := fun s => h.refl s

theorem step_getS {P} (h : StepConds P) : Step P getS := fun s => h.refl s

theorem step_liftE {P} (h : StepConds P) {α : Type} (x : Except ApiError α) :
    Step P (liftE x) := by
  cases x <;> intro s <;> exact h.refl s

theorem step_modify_sid {P} (h : StepConds P) (v : Option String) :
    Step P (modifyS (fun s => { s with sid := v })) := by
  intro s
  exact h.sid s v

theorem step_log_hash {P} (h : StepConds P) (sid0 : Option String) :
    Step P (logDebug ("Session ID Hash: " ++
      renderOpt (get_sid_hash sid0 sid0))) := by
  intro s
  exact h.logHash s sid0

theorem step_log_req {P} (h : StepConds P) (mm uu : String) :
    Step P (logDebug ("Request: " ++ mm ++ " " ++ uu)) := by
  intro s
  exact h.logReq s mm uu

theorem step_log_status {P} (h : StepConds P) (st : Int) :
    Step P (logDebug ("Status Code: " ++ toString st)) := by
  intro s
  exact h.logStatus s st

theorem step_dispatch {P} (h : StepConds P) (method url : String)
    (headers : List (String × String)) (data : Option JVal) :
    Step P (dispatch 600 method url headers data) := by
  intro s
  unfold dispatch
  dsimp only
  by_cases hcond : str_lower method = "post" ∨ str_lower method = "put" ∨
    str_lower method = "delete" ∨ str_lower method = "get"
  · rw [if_pos hcond]
    split
    · exact h.recordEnd s method url headers _
    · split <;> exact h.record s method url headers _ _
  · rw [if_neg hcond]
    exact h.refl s

theorem step_call_raw {P} (h : StepConds P) (cfg : Cfg)
    (action : Option String) (route method : String) (data : Option JVal) :
    Step P (call_raw cfg action route method data) := by
  unfold call_raw
  apply Step.bind h.trans (step_getS h)
  intro s
  apply Step.bind h.trans (step_log_hash h s.sid)
  intro _
  apply Step.bind h.trans (step_log_req h _ _)
  intro _
  apply Step.bind h.trans (step_dispatch h _ _ _ _)
  intro request
  apply Step.bind h.trans (step_log_status h _)
  intro _
  apply Step.bind h.trans (step_liftE h _)
  intro _
  dsimp only
  split
  · split
    · exact Step.bind h.trans (step_throw h _) (fun y => step_pure h _)
    · split
      · split
        · exact Step.bind h.trans (step_pure h _) (fun y => step_pure h _)
        · exact Step.bind h.trans (step_throw h _) (fun y => step_pure h _)
      · exact Step.bind h.trans (step_pure h _) (fun y => step_pure h _)
  · exact Step.bind h.trans (step_pure h _) (fun y => step_pure h _)

theorem step_call_login {P} (h : StepConds P) (cfg : Cfg) :
    Step P (call_login cfg) := by
  unfold call_login
  apply Step.bind h.trans (step_call_raw h cfg _ _ _ _)
  intro result
  apply Step.bind h.trans (step_liftE h _)
  intro session
  apply Step.bind h.trans (step_liftE h _)
  intro sidv
  dsimp only
  split
  · exact Step.bind h.trans (step_modify_sid h _) (fun y => step_pure h _)
  · exact Step.bind h.trans (step_modify_sid h _) (fun y => step_pure h _)
  · exact Step.bind h.trans (step_throw h _) (fun y => step_pure h _)

theorem step_request_login {P} (h : StepConds P) (cfg : Cfg)
    (action : String) : Step P (request_login cfg action) := by
  unfold request_login
  apply Step.bind h.trans (step_getS h)
  intro s
  split
  · apply Step.bind h.trans (step_call_login h cfg)
    intro _
    exact step_pure h _
  · exact step_pure h _

theorem step_call_authentification_status {P} (h : StepConds P) (cfg : Cfg) :
    Step P (call_authentification_status cfg) := by
  unfold call_authentification_status
  apply Step.bind h.trans (step_request_login h cfg _)
  intro _
  apply Step.bind h.trans (step_call_raw h cfg _ _ _ _)
  intro result
  exact step_pure h _

theorem step_check_authentification_body {P} (h : StepConds P) (cfg : Cfg)
    (action : String) : Step P (check_authentification_body cfg action) := by
  unfold check_authentification_body
  apply Step.bind h.trans (step_getS h)
  intro s
  split
  · apply Step.bind h.trans (step_call_authentification_status h cfg)
    intro response
    split
    · exact step_modify_sid h _
    · apply Step.bind h.trans (step_liftE h _)
      intro session
      apply Step.bind h.trans (step_liftE h _)
      intro valid
      split
      · exact step_modify_sid h _
      · exact step_pure h _
  · exact step_pure h _

theorem step_check_authentification {P} (h : StepConds P) (cfg : Cfg)
    (action : String) : Step P (check_authentification cfg action) := by
  intro s
  have hb := step_check_authentification_body h cfg action s
  unfold check_authentification
  cases hres : check_authentification_body cfg action s with
  | ok a s1 =>
      rw [hres] at hb
      exact hb
  | err e s1 =>
      rw [hres] at hb
      cases e <;> simp [Res.state] <;>
        first
        | exact hb
        | exact h.trans _ _ _ hb (h.sid s1 none)

theorem step_call_impl {P} (h : StepConds P) (cfg : Cfg)
    (action route method : String) (data : Option JVal) :
    Step P (call_impl cfg action route method data) := by
  unfold call_impl
  apply Step.bind h.trans (step_check_authentification h cfg action)
  intro _
  apply Step.bind h.trans (step_request_login h cfg action)
  intro _
  exact step_call_raw h cfg _ _ _ _

theorem projEq_conds {γ : Type} (f : ClientState → γ)
    (h1 : ∀ s v, f { s with sid := v } = f s)
    (h2 : ∀ s entry rest,
      f { s with script := rest, trace := s.trace ++ [entry] } = f s)
    (h3 : ∀ s entry, f { s with trace := s.trace ++ [entry] } = f s)
    (h4 : ∀ s line, f { s with log := s.log ++ [line] } = f s) :
    StepConds (fun s s' => f s' = f s) :=
  ⟨fun s => rfl, fun a b c p q => q.trans p, fun s v => h1 s v,
   fun s mm uu hh bb rest => h2 s _ rest, fun s mm uu hh bb => h3 s _,
   fun s sid0 => h4 s _, fun s mm uu => h4 s _, fun s st => h4 s _⟩

theorem cachesEq_conds :
    StepConds (fun s s' =>
      (s'.cache_blocking, s'.cache_padd, s'.cache_summary, s'.cache_groups) =
      (s.cache_blocking, s.cache_padd, s.cache_summary, s.cache_groups)) :=
  projEq_conds _ (fun s v => rfl) (fun s e r => rfl) (fun s e => rfl)
    (fun s l => rfl)

theorem budget600_conds : StepConds Budget600 := by
  refine ⟨?_, ?_, ?_, ?_, ?_, ?_, ?_, ?_⟩
  · intro s en hen; exact Or.inl hen
  · intro a b c p q en hen
    rcases q en hen with hb | h6
    · exact p en hb
    · exact Or.inr h6
  · intro s v en hen; exact Or.inl hen
  · intro s mm uu hh bb rest en hen
    rcases List.mem_append.mp hen with hl | hr
    · exact Or.inl hl
    · rw [List.mem_singleton.mp hr]; exact Or.inr rfl
  · intro s mm uu hh bb en hen
    rcases List.mem_append.mp hen with hl | hr
    · exact Or.inl hl
    · rw [List.mem_singleton.mp hr]; exact Or.inr rfl
  · intro s sid0 en hen; exact Or.inl hen
  · intro s mm uu en hen; exact Or.inl hen
  · intro s st en hen; exact Or.inl hen

theorem logSafe_conds : StepConds LogSafe := by
  refine ⟨?_, ?_, ?_, ?_, ?_, ?_, ?_, ?_⟩
  · intro s line h; exact Or.inl h
  · intro a b c p q line hl
    rcases q line hl with hb | hg
    · exact p line hb
    · exact Or.inr hg
  · intro s v line hl; exact Or.inl hl
  · intro s mm uu hh bb rest line hl; exact Or.inl hl
  · intro s mm uu hh bb line hl; exact Or.inl hl
  · intro s sid0 line hl
    rcases List.mem_append.mp hl with h | h
    · exact Or.inl h
    · rw [List.mem_singleton.mp h]
      exact Or.inr (Or.inl ⟨sid0, rfl⟩)
  · intro s mm uu line hl
    rcases List.mem_append.mp hl with h | h
    · exact Or.inl h
    · rw [List.mem_singleton.mp h]
      exact Or.inr (Or.inr (Or.inl ⟨mm, uu, rfl⟩))
  · intro s st line hl
    rcases List.mem_append.mp hl with h | h
    · exact Or.inl h
    · rw [List.mem_singleton.mp h]
      exact Or.inr (Or.inr (Or.inr ⟨st, rfl⟩))

theorem step_call_logout {P} (h : StepConds P) (cfg : Cfg) :
    Step P (call_logout cfg) := by
  unfold call_logout
  apply Step.bind h.trans (step_call_impl h cfg _ _ _ _)
  intro result
  exact Step.bind h.trans (step_modify_sid h none) (fun _ => step_pure h _)

theorem step_call_summary {P} (h : StepConds P)
    (hc : ∀ s v, P s { s with cache_summary := v }) (cfg : Cfg) :
    Step P (call_summary cfg) := by
  unfold call_summary
  apply Step.bind h.trans (step_call_impl h cfg _ _ _ _)
  intro result
  exact Step.bind h.trans (fun s => hc s _) (fun _ => step_pure h _)

theorem step_call_padd {P} (h : StepConds P)
    (hc : ∀ s v, P s { s with cache_padd := v }) (cfg : Cfg) (full : Bool) :
    Step P (call_padd cfg full) := by
  unfold call_padd
  apply Step.bind h.trans (step_call_impl h cfg _ _ _ _)
  intro result
  exact Step.bind h.trans (fun s => hc s _) (fun _ => step_pure h _)

theorem step_call_blocking_status {P} (h : StepConds P)
    (hc : ∀ s v, P s { s with cache_blocking := v }) (cfg : Cfg) :
    Step P (call_blocking_status cfg) := by
  unfold call_blocking_status
  apply Step.bind h.trans (step_call_impl h cfg _ _ _ _)
  intro result
  exact Step.bind h.trans (fun s => hc s _) (fun _ => step_pure h _)

theorem step_call_blocking_enabled {P} (h : StepConds P)
    (hc : ∀ s v, P s { s with cache_blocking := v }) (cfg : Cfg) :
    Step P (call_blocking_enabled cfg) := by
  unfold call_blocking_enabled
  apply Step.bind h.trans (step_call_impl h cfg _ _ _ _)
  intro result
  exact Step.bind h.trans (fun s => hc s _) (fun _ => step_pure h _)

theorem step_call_blocking_disabled {P} (h : StepConds P)
    (hc : ∀ s v, P s { s with cache_blocking := v }) (cfg : Cfg)
    (duration : Option Int) : Step P (call_blocking_disabled cfg duration) := by
  unfold call_blocking_disabled
  apply Step.bind h.trans (step_call_impl h cfg _ _ _ _)
  intro result
  exact Step.bind h.trans (fun s => hc s _) (fun _ => step_pure h _)

theorem step_insert_groups {P} (h : StepConds P)
    (hg : ∀ s v, P s { s with cache_groups := v }) (gs : List JVal) :
    Step P (insert_groups gs) := by
  induction gs with
  | nil => exact step_pure h _
  | cons g rest ih =>
      unfold insert_groups
      apply Step.bind h.trans (step_liftE h _)
      intro name
      apply Step.bind h.trans (step_liftE h _)
      intro comment
      apply Step.bind h.trans (step_liftE h _)
      intro enabled
      dsimp only
      split
      · exact Step.bind h.trans (fun s => hg s _) (fun _ => ih)
      · exact Step.bind h.trans (step_throw h _) (fun _ => ih)

theorem step_call_get_groups {P} (h : StepConds P)
    (hg : ∀ s v, P s { s with cache_groups := v }) (cfg : Cfg) :
    Step P (call_get_groups cfg) := by
  unfold call_get_groups
  apply Step.bind h.trans (step_call_impl h cfg _ _ _ _)
  intro result
  apply Step.bind h.trans (step_liftE h _)
  intro groups
  dsimp only
  split
  · exact Step.bind h.trans (step_insert_groups h hg _)
      (fun _ => step_pure h _)
  · exact Step.bind h.trans (step_throw h _) (fun _ => step_pure h _)

theorem step_call_group_enable {P} (h : StepConds P) (cfg : Cfg)
    (group : String) : Step P (call_group_enable cfg group) := by
  unfold call_group_enable
  apply Step.bind h.trans (step_getS h)
  intro s
  dsimp only
  split
  · apply Step.bind h.trans (step_pure h _)
    intro entry
    apply Step.bind h.trans (step_liftE h _)
    intro comment
    apply Step.bind h.trans (step_call_impl h cfg _ _ _ _)
    intro result
    exact step_pure h _
  · apply Step.bind h.trans (step_throw h _)
    intro entry
    apply Step.bind h.trans (step_liftE h _)
    intro comment
    apply Step.bind h.trans (step_call_impl h cfg _ _ _ _)
    intro result
    exact step_pure h _

theorem step_call_group_disable {P} (h : StepConds P) (cfg : Cfg)
    (group : String) : Step P (call_group_disable cfg group) := by
  unfold call_group_disable
  apply Step.bind h.trans (step_getS h)
  intro s
  dsimp only
  split
  · apply Step.bind h.trans (step_pure h _)
    intro entry
    apply Step.bind h.trans (step_liftE h _)
    intro comment
    apply Step.bind h.trans (step_call_impl h cfg _ _ _ _)
    intro result
    exact step_pure h _
  · apply Step.bind h.trans (step_throw h _)
    intro entry
    apply Step.bind h.trans (step_liftE h _)
    intro comment
    apply Step.bind h.trans (step_call_impl h cfg _ _ _ _)
    intro result
    exact step_pure h _

/-- Dict access can only raise `TypeError` or `KeyError` for the accessed
key. -/
theorem getKey_err_kinds (v : JVal) (kk : String) (e : ApiError)
    (h : v.getKey kk = Except.error e) :
    e = ApiError.TypeError ∨ e = ApiError.KeyError kk := by
  cases v <;> simp [JVal.getKey] at h
  case obj fields =>
    cases hl : jlookup fields kk with
    | some w => rw [hl] at h; simp at h
    | none => rw [hl] at h; simp at h; exact Or.inr h.symm
  all_goals exact Or.inl h.symm

theorem insert_groups_err_kinds (gs : List JVal) :
    ∀ s e s', insert_groups gs s = Res.err e s' →
      e = ApiError.TypeError ∨ ∃ kk, e = ApiError.KeyError kk := by
  induction gs with
  | nil => intro s e s' h; simp [insert_groups, ApiM.pure] at h
  | cons g rest ih =>
      intro s e s' h
      simp only [insert_groups, ApiM.bind_def, ApiM.bind, liftE] at h
      cases hn : JVal.getKey g "name" with
      | error en =>
          rw [hn] at h
          simp only [ApiM.throw] at h
          injection h with h1 h2
          subst h1
          rcases getKey_err_kinds g "name" en hn with h1 | h1
          · exact Or.inl h1
          · exact Or.inr ⟨"name", h1⟩
      | ok name =>
          rw [hn] at h
          simp only [ApiM.pure] at h
          cases hc : JVal.getKey g "comment" with
          | error ec =>
              rw [hc] at h
              simp only [ApiM.throw] at h
              injection h with h1 h2
              subst h1
              rcases getKey_err_kinds g "comment" ec hc with h1 | h1
              · exact Or.inl h1
              · exact Or.inr ⟨"comment", h1⟩
          | ok comment =>
              rw [hc] at h
              simp only [ApiM.pure] at h
              cases he : JVal.getKey g "enabled" with
              | error ee =>
                  rw [he] at h
                  simp only [ApiM.throw] at h
                  injection h with h1 h2
                  subst h1
                  rcases getKey_err_kinds g "enabled" ee he with h1 | h1
                  · exact Or.inl h1
                  · exact Or.inr ⟨"enabled", h1⟩
              | ok enabled =>
                  rw [he] at h
                  simp only [ApiM.pure] at h
                  cases name <;>
                    simp only [ApiM.bind, ApiM.throw, modifyS,
                      ApiM.pure] at h
                  case str n => exact ih _ _ _ h
                  all_goals
                    (injection h with h1 h2; subst h1; exact Or.inl rfl)

theorem bind_call_impl_err (cfg : Cfg) (action route method : String)
    (data : Option JVal) (k : Envelope → ApiM Envelope)
    (hk : ∀ env s1, (k env s1).isOk = true)
    (s s' : ClientState) (e : ApiError)
    (herr : ApiM.bind (call_impl cfg action route method data) k s =
      Res.err e s') :
    CachesEq s s' := by
  cases hc : call_impl cfg action route method data s with
  | ok a s1 =>
      simp only [ApiM.bind, hc] at herr
      have hko := hk a s1
      rw [herr] at hko
      simp [Res.isOk] at hko
  | err e1 s1 =>
      simp only [ApiM.bind, hc] at herr
      injection herr with h1 h2
      subst h1
      subst h2
      have h := step_call_impl cachesEq_conds cfg action route method data s
      rw [hc] at h
      simp only [Res.state, Prod.mk.injEq] at h
      exact ⟨h.1, h.2.1, h.2.2.1, h.2.2.2⟩

/-- C6: a failed data operation leaves every cache snapshot unchanged
(`call_get_groups` qualified by the claim's failure kinds, since a
malformed 2xx body can interrupt its upsert loop), and each operation
never touches the caches belonging to the other operations, successful or
not. -/
theorem caches_stable_on_failure (cfg : Cfg) (full : Bool)
    (dur : Option Int) (s s' : ClientState) (e : ApiError) :
    (call_summary cfg s = Res.err e s' → CachesEq s s') ∧
    (call_padd cfg full s = Res.err e s' → CachesEq s s') ∧
    (call_blocking_status cfg s = Res.err e s' → CachesEq s s') ∧
    (call_blocking_enabled cfg s = Res.err e s' → CachesEq s s') ∧
    (call_blocking_disabled cfg dur s = Res.err e s' → CachesEq s s') ∧
    (call_get_groups cfg s = Res.err e s' → IsCallFailure e →
      CachesEq s s') ∧
    (∀ s0 : ClientState,
      (Res.state (call_summary cfg s0)).cache_blocking = s0.cache_blocking ∧
      (Res.state (call_summary cfg s0)).cache_padd = s0.cache_padd ∧
      (Res.state (call_summary cfg s0)).cache_groups = s0.cache_groups) ∧
    (∀ s0 : ClientState,
      (Res.state (call_padd cfg full s0)).cache_blocking =
        s0.cache_blocking ∧
      (Res.state (call_padd cfg full s0)).cache_summary =
        s0.cache_summary ∧
      (Res.state (call_padd cfg full s0)).cache_groups = s0.cache_groups) ∧
    (∀ s0 : ClientState,
      (Res.state (call_blocking_status cfg s0)).cache_padd =
        s0.cache_padd ∧
      (Res.state (call_blocking_status cfg s0)).cache_summary =
        s0.cache_summary ∧
      (Res.state (call_blocking_status cfg s0)).cache_groups =
        s0.cache_groups) ∧
    (∀ s0 : ClientState,
      (Res.state (call_blocking_enabled cfg s0)).cache_padd =
        s0.cache_padd ∧
      (Res.state (call_blocking_enabled cfg s0)).cache_summary =
        s0.cache_summary ∧
      (Res.state (call_blocking_enabled cfg s0)).cache_groups =
        s0.cache_groups) ∧
    (∀ s0 : ClientState,
      (Res.state (call_blocking_disabled cfg dur s0)).cache_padd =
        s0.cache_padd ∧
      (Res.state (call_blocking_disabled cfg dur s0)).cache_summary =
        s0.cache_summary ∧
      (Res.state (call_blocking_disabled cfg dur s0)).cache_groups =
        s0.cache_groups) ∧
    (∀ s0 : ClientState,
      (Res.state (call_get_groups cfg s0)).cache_blocking =
        s0.cache_blocking ∧
      (Res.state (call_get_groups cfg s0)).cache_padd = s0.cache_padd ∧
      (Res.state (call_get_groups cfg s0)).cache_summary =
        s0.cache_summary) := by
  refine ⟨?_, ?_, ?_, ?_, ?_, ?_, ?_, ?_, ?_, ?_, ?_, ?_⟩
  · intro herr
    exact bind_call_impl_err cfg "summary" "/stats/summary" "GET" none
      (fun result => ApiM.bind
        (modifyS (fun st => { st with cache_summary := result.data }))
        (fun _ => ApiM.pure
          { code := result.code, reason := result.reason,
            data := result.data }))
      (fun env s1 => rfl) s s' e herr
  · intro herr
    exact bind_call_impl_err cfg "padd"
      ("/padd?full=" ++ (if full then "true" else "false")) "GET" none
      (fun result => ApiM.bind
        (modifyS (fun st => { st with cache_padd := result.data }))
        (fun _ => ApiM.pure
          { code := result.code, reason := result.reason,
            data := result.data }))
      (fun env s1 => rfl) s s' e herr
  · intro herr
    exact bind_call_impl_err cfg "blocking_status" "/dns/blocking" "GET"
      none
      (fun result => ApiM.bind
        (modifyS (fun st => { st with cache_blocking := result.data }))
        (fun _ => ApiM.pure
          { code := result.code, reason := result.reason,
            data := result.data }))
      (fun env s1 => rfl) s s' e herr
  · intro herr
    exact bind_call_impl_err cfg "blocking_enabled" "/dns/blocking" "POST"
      (some (JVal.obj [("blocking", JVal.bool true), ("timer", JVal.null)]))
      (fun result => ApiM.bind
        (modifyS (fun st => { st with cache_blocking := result.data }))
        (fun _ => ApiM.pure
          { code := result.code, reason := result.reason,
            data := result.data }))
      (fun env s1 => rfl) s s' e herr
  · intro herr
    cases dur with
    | some d =>
        exact bind_call_impl_err cfg "blocking_disabled" "/dns/blocking"
          "POST"
          (some (JVal.obj [("blocking", JVal.bool false),
            ("timer", JVal.num d)]))
          (fun result => ApiM.bind
            (modifyS (fun st => { st with cache_blocking := result.data }))
            (fun _ => ApiM.pure
              { code := result.code, reason := result.reason,
                data := result.data }))
          (fun env s1 => rfl) s s' e herr
    | none =>
        exact bind_call_impl_err cfg "blocking_disabled" "/dns/blocking"
          "POST"
          (some (JVal.obj [("blocking", JVal.bool false),
            ("timer", JVal.null)]))
          (fun result => ApiM.bind
            (modifyS (fun st => { st with cache_blocking := result.data }))
            (fun _ => ApiM.pure
              { code := result.code, reason := result.reason,
                data := result.data }))
          (fun env s1 => rfl) s s' e herr
  · intro herr hfail
    cases hc : call_impl cfg "groups" "/groups" "GET" none s with
    | ok a s1 =>
        simp only [call_get_groups, ApiM.bind_def, ApiM.bind, hc,
          liftE] at herr
        cases hg : JVal.getKey a.data "groups" with
        | error eg =>
            rw [hg] at herr
            simp only [ApiM.throw] at herr
            injection herr with h1 h2
            subst h1
            rcases getKey_err_kinds a.data "groups" eg hg with h1 | h1 <;>
              (subst h1; simp [IsCallFailure] at hfail)
        | ok gv =>
            rw [hg] at herr
            simp only [ApiM.pure] at herr
            cases gv <;>
              simp only [ApiM.bind, ApiM.throw, ApiM.pure] at herr
            case arr gs =>
                cases hins : insert_groups gs s1 with
                | ok u s2 =>
                    rw [hins] at herr
                    simp only [ApiM.pure] at herr
                    exact Res.noConfusion herr
                | err ei si =>
                    rw [hins] at herr
                    injection herr with h1 h2
                    subst h1
                    rcases insert_groups_err_kinds gs s1 ei si hins with
                      h1 | ⟨kk, h1⟩ <;>
                      (subst h1; simp [IsCallFailure] at hfail)
            all_goals
              (injection herr with h1 h2; subst h1;
                simp [IsCallFailure] at hfail)
    | err e1 s1 =>
        simp only [call_get_groups, ApiM.bind_def, ApiM.bind, hc] at herr
        injection herr with h1 h2
        subst h1
        subst h2
        have h := step_call_impl cachesEq_conds cfg "groups" "/groups"
          "GET" none s
        rw [hc] at h
        simp only [Res.state, Prod.mk.injEq] at h
        exact ⟨h.1, h.2.1, h.2.2.1, h.2.2.2⟩
  · intro s0
    have h := step_call_summary
      (projEq_conds (fun st => (st.cache_blocking, st.cache_padd,
        st.cache_groups)) (fun _ _ => rfl) (fun _ _ _ => rfl)
        (fun _ _ => rfl) (fun _ _ => rfl))
      (fun _ _ => rfl) cfg s0
    simp only [Prod.mk.injEq] at h
    exact ⟨h.1, h.2.1, h.2.2⟩
  · intro s0
    have h := step_call_padd
      (projEq_conds (fun st => (st.cache_blocking, st.cache_summary,
        st.cache_groups)) (fun _ _ => rfl) (fun _ _ _ => rfl)
        (fun _ _ => rfl) (fun _ _ => rfl))
      (fun _ _ => rfl) cfg full s0
    simp only [Prod.mk.injEq] at h
    exact ⟨h.1, h.2.1, h.2.2⟩
  · intro s0
    have h := step_call_blocking_status
      (projEq_conds (fun st => (st.cache_padd, st.cache_summary,
        st.cache_groups)) (fun _ _ => rfl) (fun _ _ _ => rfl)
        (fun _ _ => rfl) (fun _ _ => rfl))
      (fun _ _ => rfl) cfg s0
    simp only [Prod.mk.injEq] at h
    exact ⟨h.1, h.2.1, h.2.2⟩
  · intro s0
    have h := step_call_blocking_enabled
      (projEq_conds (fun st => (st.cache_padd, st.cache_summary,
        st.cache_groups)) (fun _ _ => rfl) (fun _ _ _ => rfl)
        (fun _ _ => rfl) (fun _ _ => rfl))
      (fun _ _ => rfl) cfg s0
    simp only [Prod.mk.injEq] at h
    exact ⟨h.1, h.2.1, h.2.2⟩
  · intro s0
    have h := step_call_blocking_disabled
      (projEq_conds (fun st => (st.cache_padd, st.cache_summary,
        st.cache_groups)) (fun _ _ => rfl) (fun _ _ _ => rfl)
        (fun _ _ => rfl) (fun _ _ => rfl))
      (fun _ _ => rfl) cfg dur s0
    simp only [Prod.mk.injEq] at h
    exact ⟨h.1, h.2.1, h.2.2⟩
  · intro s0
    have h := step_call_get_groups
      (projEq_conds (fun st => (st.cache_blocking, st.cache_padd,
        st.cache_summary)) (fun _ _ => rfl) (fun _ _ _ => rfl)
        (fun _ _ => rfl) (fun _ _ => rfl))
      (fun _ _ => rfl) cfg s0
    simp only [Prod.mk.injEq] at h
    exact ⟨h.1, h.2.1, h.2.2⟩

set_option maxRecDepth 100000 in
/-- Witness for C6: a probe that hits a transport failure makes
`call_summary` raise `ClientConnector` with all caches untouched. -/
theorem caches_stable_on_failure_witness :
    call_summary cfg_fix (mkState (some "T") (JVal.obj []) (JVal.obj [])
        (JVal.obj []) [] [TransportResult.hang] [] []) =
      Res.err ApiError.ClientConnectorException
        (mkState (some "T") (JVal.obj []) (JVal.obj []) (JVal.obj []) [] []
          [⟨"GET", cfg_fix.url ++ "/auth", base_headers ++ [("sid", "T")],
            none, 600⟩]
          ["Session ID Hash: e632b7095b0bf32c260fa4c539e9fd7b852d0de454e9be26f24d0d6f91d069d3",
           "Request: GET http://pi.hole/auth"]) ∧
    CachesEq
      (mkState (some "T") (JVal.obj []) (JVal.obj []) (JVal.obj []) []
        [TransportResult.hang] [] [])
      (mkState (some "T") (JVal.obj []) (JVal.obj []) (JVal.obj []) [] []
        [⟨"GET", cfg_fix.url ++ "/auth", base_headers ++ [("sid", "T")],
          none, 600⟩]
        ["Session ID Hash: e632b7095b0bf32c260fa4c539e9fd7b852d0de454e9be26f24d0d6f91d069d3",
         "Request: GET http://pi.hole/auth"]) := by
  constructor
  · rfl
  · exact (caches_stable_on_failure cfg_fix true none _ _
      ApiError.ClientConnectorException).1 rfl

/-- Projection: a normal result raised no error. -/
theorem res_errorOf_ok {α : Type} (a : α) (s : ClientState) :
    (Res.ok a s).errorOf = none := rfl

theorem res_errorOf_err {α : Type} (e : ApiError) (s : ClientState) :
    (Res.err (α := α) e s).errorOf = some e := rfl

set_option maxHeartbeats 1600000 in
/-- C7: a request whose transport outcome is a timeout, a connection error
or a DNS resolution failure raises `ClientConnector` — shown both for the
pre-flight probe's request and for the operation's own request — and every
request any operation dispatches runs under the single 600-second
`asyncio.timeout` budget (every trace entry carries budget 600). -/
theorem transport_failures_and_timeout (cfg : Cfg)
    (action route method : String) (data : Option JVal) (t : String)
    (cb cp cs : JVal) (cg : List (String × JVal)) (te : TransportResult)
    (rest : List TransportResult) (tr : List TraceEntry) (lg : List String)
    (pr ptext : String) (psf : List (String × JVal))
    (full : Bool) (dur : Option Int) (grp : String)
    (ha1 : action ≠ "login") (ha2 : action ≠ "authentification_status")
    (hm : str_lower method = "post" ∨ str_lower method = "put" ∨
      str_lower method = "delete" ∨ str_lower method = "get")
    (hptext : ptext ≠ "")
    (hpvalid : jlookup psf "valid" = some (JVal.bool true))
    (hbad : te = TransportResult.hang ∨ te = TransportResult.clientError ∨
      te = TransportResult.gaiError) :
    (Res.errorOf (call_impl cfg action route method data
        (mkState (some t) cb cp cs cg (te :: rest) tr lg)) =
      some ApiError.ClientConnectorException) ∧
    (Res.errorOf (call_impl cfg action route method data
        (mkState (some t) cb cp cs cg
          (TransportResult.ok ⟨200, pr, ptext,
            some (JVal.obj [("session", JVal.obj psf)])⟩ :: te :: rest)
          tr lg)) =
      some ApiError.ClientConnectorException) ∧
    Step Budget600 (call_impl cfg action route method data) ∧
    Step Budget600 (call_login cfg) ∧
    Step Budget600 (call_authentification_status cfg) ∧
    Step Budget600 (call_logout cfg) ∧
    Step Budget600 (call_summary cfg) ∧
    Step Budget600 (call_padd cfg full) ∧
    Step Budget600 (call_blocking_status cfg) ∧
    Step Budget600 (call_blocking_enabled cfg) ∧
    Step Budget600 (call_blocking_disabled cfg dur) ∧
    Step Budget600 (call_get_groups cfg) ∧
    Step Budget600 (call_group_enable cfg grp) ∧
    Step Budget600 (call_group_disable cfg grp) := by
  refine ⟨?_, ?_, ?_, ?_, ?_, ?_, ?_, ?_, ?_, ?_, ?_, ?_, ?_, ?_⟩
  · rcases hbad with hb | hb | hb <;> subst hb <;>
      simp [call_impl, check_authentification, check_authentification_body,
        call_authentification_status, request_login, call_raw, mkState,
        ApiM.bind_def, ApiM.bind, ApiM.pure_def, ApiM.pure, ApiM.throw,
        getS, logDebug, modifyS, dispatch, liftE, JVal.getKey, jlookup,
        get_sid_hash, renderOpt,
        show str_lower "GET" = "get" from rfl,
        handle_status_of_lt, ha1, ha2,
        Res.errorOf]
  · rcases hm with hm' | hm' | hm' | hm' <;>
      rcases hbad with hb | hb | hb <;> subst hb <;>
      simp [call_impl, check_authentification, check_authentification_body,
        call_authentification_status, request_login, call_raw, mkState,
        ApiM.bind_def, ApiM.bind, ApiM.pure_def, ApiM.pure, ApiM.throw,
        getS, logDebug, modifyS, dispatch, liftE, JVal.getKey, jlookup,
        get_sid_hash, renderOpt,
        show str_lower "GET" = "get" from rfl,
        handle_status_of_lt, ha1, ha2, hm', hptext, hpvalid,
        Res.errorOf]
  · exact step_call_impl budget600_conds cfg action route method data
  · exact step_call_login budget600_conds cfg
  · exact step_call_authentification_status budget600_conds cfg
  · exact step_call_logout budget600_conds cfg
  · exact step_call_summary budget600_conds (fun s v en hen => Or.inl hen)
      cfg
  · exact step_call_padd budget600_conds (fun s v en hen => Or.inl hen)
      cfg full
  · exact step_call_blocking_status budget600_conds
      (fun s v en hen => Or.inl hen) cfg
  · exact step_call_blocking_enabled budget600_conds
      (fun s v en hen => Or.inl hen) cfg
  · exact step_call_blocking_disabled budget600_conds
      (fun s v en hen => Or.inl hen) cfg dur
  · exact step_call_get_groups budget600_conds
      (fun s v en hen => Or.inl hen) cfg
  · exact step_call_group_enable budget600_conds cfg grp
  · exact step_call_group_disable budget600_conds cfg grp

/-- Witness for C7: the summary operation's own request hanging past the
timeout yields `ClientConnector`. -/
theorem transport_failures_and_timeout_witness :
    Res.errorOf (call_impl cfg_fix "summary" "/stats/summary" "GET" none
        (mkState (some "T") (JVal.obj []) (JVal.obj []) (JVal.obj []) []
          [probe_ok_entry "T", TransportResult.hang] [] [])) =
      some ApiError.ClientConnectorException :=
  (transport_failures_and_timeout cfg_fix "summary" "/stats/summary" "GET"
    none "T" (JVal.obj []) (JVal.obj []) (JVal.obj []) []
    TransportResult.hang [] [] [] "OK" "x"
    [("sid", JVal.str "T"), ("valid", JVal.bool true)]
    true none "g"
    (by decide) (by decide) (Or.inr (Or.inr (Or.inr rfl))) (by decide) rfl
    (Or.inl rfl)).2.1

/-- C10: diagnostic output never carries the raw session token: the hash
helper returns `none` when no token is held and the SHA-256 hex digest of
the held token otherwise; the redacted debug copy of a login response maps
`session.sid` to the `"[redacted]"` marker; every log line any operation
produces matches one of the three fixed `_call` shapes, whose only
session-derived content is the `get_sid_hash` rendering; and the data a
successful login returns to the caller is the unredacted parsed body. -/
theorem token_redaction_and_log_hashing (cfg : Cfg)
    (action route method : String) (data : Option JVal)
    (full : Bool) (dur : Option Int) (grp : String)
    (cb cp cs : JVal) (cg : List (String × JVal))
    (rest : List TransportResult) (tr : List TraceEntry) (lg : List String)
    (lst : Int) (lr ltext : String) (fields sf : List (String × JVal))
    (tok : String) :
    (∀ sid0 : Option String, get_sid_hash none sid0 = none) ∧
    (∀ (t : String) (sid0 : Option String),
      get_sid_hash (some t) sid0 = some (sha256hex t)) ∧
    (∀ d d' : JVal, redact_login_sid d = Except.ok d' →
      ∃ sf', d'.getKey "session" = Except.ok (JVal.obj sf') ∧
        jlookup sf' "sid" = some (JVal.str "[redacted]")) ∧
    Step LogSafe (call_impl cfg action route method data) ∧
    Step LogSafe (call_login cfg) ∧
    Step LogSafe (call_authentification_status cfg) ∧
    Step LogSafe (call_logout cfg) ∧
    Step LogSafe (call_summary cfg) ∧
    Step LogSafe (call_padd cfg full) ∧
    Step LogSafe (call_blocking_status cfg) ∧
    Step LogSafe (call_blocking_enabled cfg) ∧
    Step LogSafe (call_blocking_disabled cfg dur) ∧
    Step LogSafe (call_get_groups cfg) ∧
    Step LogSafe (call_group_enable cfg grp) ∧
    Step LogSafe (call_group_disable cfg grp) ∧
    (lst < 400 → ltext ≠ "" →
      jlookup fields "session" = some (JVal.obj sf) →
      jlookup sf "sid" = some (JVal.str tok) →
      Res.value env0 (call_login cfg (mkState none cb cp cs cg
        (TransportResult.ok ⟨lst, lr, ltext,
          some (JVal.obj fields)⟩ :: rest) tr lg)) =
        ⟨lst, lr, JVal.obj fields⟩) := by
  refine ⟨fun sid0 => rfl, fun t sid0 => rfl, ?_, ?_, ?_, ?_, ?_, ?_, ?_,
    ?_, ?_, ?_, ?_, ?_, ?_, ?_⟩
  · intro d d' h
    cases d with
    | obj fields0 =>
        cases hl : jlookup fields0 "session" with
        | none => simp [redact_login_sid, hl] at h
        | some w =>
            cases w with
            | obj sf0 =>
                simp only [redact_login_sid, hl] at h
                injection h with h
                subst h
                exact ⟨jset sf0 "sid" (JVal.str "[redacted]"),
                  by simp [JVal.getKey, jlookup_jset_self],
                  jlookup_jset_self _ _ _⟩
            | null => simp [redact_login_sid, hl] at h
            | bool b => simp [redact_login_sid, hl] at h
            | num n => simp [redact_login_sid, hl] at h
            | str s2 => simp [redact_login_sid, hl] at h
            | arr xs => simp [redact_login_sid, hl] at h
    | null => simp [redact_login_sid] at h
    | bool b => simp [redact_login_sid] at h
    | num n => simp [redact_login_sid] at h
    | str s2 => simp [redact_login_sid] at h
    | arr xs => simp [redact_login_sid] at h
  · exact step_call_impl logSafe_conds cfg action route method data
  · exact step_call_login logSafe_conds cfg
  · exact step_call_authentification_status logSafe_conds cfg
  · exact step_call_logout logSafe_conds cfg
  · exact step_call_summary logSafe_conds (fun s v line hl => Or.inl hl) cfg
  · exact step_call_padd logSafe_conds (fun s v line hl => Or.inl hl)
      cfg full
  · exact step_call_blocking_status logSafe_conds
      (fun s v line hl => Or.inl hl) cfg
  · exact step_call_blocking_enabled logSafe_conds
      (fun s v line hl => Or.inl hl) cfg
  · exact step_call_blocking_disabled logSafe_conds
      (fun s v line hl => Or.inl hl) cfg dur
  · exact step_call_get_groups logSafe_conds
      (fun s v line hl => Or.inl hl) cfg
  · exact step_call_group_enable logSafe_conds cfg grp
  · exact step_call_group_disable logSafe_conds cfg grp
  · intro hst htext hsession hsid
    simp [call_login, call_raw, mkState, ApiM.bind_def, ApiM.bind,
      ApiM.pure_def, ApiM.pure, getS, logDebug, modifyS, dispatch, liftE,
      redact_login_sid, JVal.getKey, get_sid_hash, renderOpt,
      show str_lower "POST" = "post" from rfl,
      handle_status_of_lt, hst, htext, hsession, hsid,
      res_value_ok, res_value_err]

/-- Witness for C10: the held token `"T"` hashes to its SHA-256 digest,
and redacting a concrete login body maps `session.sid` to the marker. -/
theorem token_redaction_and_log_hashing_witness :
    get_sid_hash (some "T") none = some (sha256hex "T") ∧
    (∃ sf', (JVal.obj [("session",
        JVal.obj [("sid", JVal.str "[redacted]")])]).getKey "session" =
        Except.ok (JVal.obj sf') ∧
      jlookup sf' "sid" = some (JVal.str "[redacted]")) :=
  ⟨(token_redaction_and_log_hashing cfg_fix "summary" "/stats/summary"
      "GET" none true none "g" (JVal.obj []) (JVal.obj []) (JVal.obj [])
      [] [] [] [] 200 "OK" "x" [] [] "T").2.1 "T" none,
   (token_redaction_and_log_hashing cfg_fix "summary" "/stats/summary"
      "GET" none true none "g" (JVal.obj []) (JVal.obj []) (JVal.obj [])
      [] [] [] [] 200 "OK" "x" [] [] "T").2.2.1
      (JVal.obj [("session", JVal.obj [("sid", JVal.str "RAW")])])
      (JVal.obj [("session", JVal.obj [("sid", JVal.str "[redacted]")])])
      rfl⟩

end PiHoleV6
